import Mathlib

/-!
Verification of the jd-farm task-orchestration core (src/lib.rs) against its
natural-language specification.

The Rust code is shallowly embedded as follows:
* JSON values (`serde_json::Value`) become the inductive `Json`.
* One network exchange can end in three ways (`NetResult`): the POST itself
  fails (`sendFail`, reqwest `send()` error), the body is not valid JSON
  (`decodeFail`, reqwest `json()` error), or a JSON value comes back.
* Every handler is a function in the monad `M`: a state-passing computation
  over the index of the next network response, producing an `Except Failure`
  result together with the list of observable events it emitted (network
  calls, sleeps, log lines).  `Failure.err` models a Rust `Result::Err`
  (catchable by `match`/`let _ =`); `Failure.panic` models a Rust panic
  (never caught by the code at hand).
* The environment `env : Nat -> NetResult` supplies the server's response to
  the i-th network exchange of the run.
-/

set_option maxHeartbeats 1000000
set_option linter.unnecessarySeqFocus false
set_option linter.unreachableTactic false
set_option linter.unusedTactic false

namespace JdFarm

/-- JSON values as handled by serde_json. -/
inductive Json where
  | null : Json
  | bool : Bool → Json
  | num : Int → Json
  | str : String → Json
  | arr : List Json → Json
  | obj : List (String × Json) → Json

/-- `Value::get(key)`: `Some` field value for objects containing the key,
`None` otherwise. -/
def Json.getField : Json → String → Option Json
  | .obj fields, k => fields.lookup k
  | _, _ => none

/-- `Value::index` (`data["k"]`): the field value, or `Null` when the key is
missing or the value is not an object. -/
def Json.index (j : Json) (k : String) : Json :=
  (j.getField k).getD Json.null

/-- `Value::as_str`. -/
def Json.as_str : Json → Option String
  | .str s => some s
  | _ => none

/-- `Value::as_bool`. -/
def Json.as_bool : Json → Option Bool
  | .bool b => some b
  | _ => none

/-- `Value::as_u64`: the number when it is a non-negative integer fitting
in 64 bits. -/
def Json.as_u64 : Json → Option Nat
  | .num n => if 0 ≤ n ∧ n < 2 ^ 64 then some n.toNat else none
  | _ => none

/-- Outcome of one network exchange, as seen by `JClient::request`. -/
inductive NetResult where
  | sendFail : NetResult
  | decodeFail : NetResult
  | json : Json → NetResult

/-- A Rust-level failure: `err` is a `Result::Err` (catchable), `panic` is a
panic (uncatchable in this code base). -/
inductive Failure where
  | err : Failure
  | panic : Failure
deriving DecidableEq

/-- Observable events of a run: an attempted network call (function id and
request body), a sleep of a number of seconds, or a log line (tag). -/
inductive Event where
  | call : String → Json → Event
  | sleep : Nat → Event
  | log : String → Event

/-- The effect monad of the embedding: from the index of the next network
response, produce a result (or failure), the next index, and the emitted
events. -/
def M (α : Type) : Type :=
  Nat → Except Failure α × Nat × List Event

def M.pure (a : α) : M α := fun n => (Except.ok a, n, [])

def M.bind (m : M α) (f : α → M β) : M β := fun n =>
  match m n with
  | (Except.ok a, n1, t1) =>
    match f a n1 with
    | (r, n2, t2) => (r, n2, t1 ++ t2)
  | (Except.error e, n1, t1) => (Except.error e, n1, t1)

instance : Monad M where
  pure := M.pure
  bind := M.bind

/-- Emit one event. -/
def M.emit (e : Event) : M Unit := fun n => (Except.ok (), n, [e])

/-- Consume the next network response. -/
def M.next (env : Nat → NetResult) : M NetResult := fun n =>
  (Except.ok (env n), n + 1, [])

/-- Raise a Rust `Result::Err` (the `?` operator). -/
def M.throwErr : M α := fun n => (Except.error Failure.err, n, [])

/-- Raise a Rust panic. -/
def M.throwPanic : M α := fun n => (Except.error Failure.panic, n, [])

/-- Observe a fallible computation's `Result` (a Rust `match` on it):
`Err` is reified, a panic still propagates. -/
def M.attempt (m : M α) : M (Except Unit α) := fun n =>
  match m n with
  | (Except.ok a, n1, t1) => (Except.ok (Except.ok a), n1, t1)
  | (Except.error Failure.err, n1, t1) => (Except.ok (Except.error ()), n1, t1)
  | (Except.error Failure.panic, n1, t1) => (Except.error Failure.panic, n1, t1)

/-- Discard a fallible computation's `Result` (Rust `let _ = ...`). -/
def M.ignore (m : M α) : M Unit :=
  M.bind (M.attempt m) (fun _ => M.pure ())

/-! ## Domain structures (the serde structs of src/lib.rs)

Rust unsigned integers are modelled as `Nat`; the decoders below enforce the
corresponding range bounds, mirroring serde's checked decoding. -/

/-- `JdFarmInfo`: tree/reward snapshot (`farmUserPro`). -/
structure JdFarmInfo where
  total_energy : Nat      -- u32
  tree_state : Nat        -- u8
  tree_energy : Nat       -- u32
  tree_total_energy : Nat -- u32
  share_code : String
  nick_name : String
  name : String
  prize_level : Nat       -- u8

/-- `SignInTask`. -/
structure SignInTask where
  f : Bool

/-- `FirstWaterTask`. -/
structure FirstWaterTask where
  f : Bool

/-- `TotalWaterTask` (ten-waters quota). -/
structure TotalWaterTask where
  f : Bool
  total_water_task_limit : Nat -- u16
  total_water_task_times : Nat -- u16

/-- `WaterFriendTask`. -/
structure WaterFriendTask where
  water_friend_max : Nat       -- u8
  water_friend_count_key : Nat -- u8
  f : Bool
  water_friend_got_award : Bool

/-- `BrowseTaskItem`. -/
structure BrowseTaskItem where
  advert_id : String
  main_title : String
  limit : Nat              -- u8
  had_finished_times : Nat -- u8
  time : Nat               -- u16
  had_got_times : Nat      -- u8

/-- `BrowseTask`. -/
structure BrowseTask where
  f : Bool
  user_browse_task_ads : List BrowseTaskItem

/-- `TreasureBoxTask`. -/
structure TreasureBoxTask where
  line : String
  f : Bool

/-- `WaterRainTask`. -/
structure WaterRainTask where
  f : Bool
  win_times : Nat -- u8
  last_time : Nat -- u64, milliseconds since epoch

/-- `FriendInfo`. -/
structure FriendInfo where
  nick_name : String
  share_code : String
  friend_state : Nat -- u8

/-- `FriendInfoList`. -/
structure FriendInfoList where
  friends : List FriendInfo

/-- `ThreeMealTask`. -/
structure ThreeMealTask where
  f : Bool

/-- `TaskInfo` (the daily task catalog). -/
structure TaskInfo where
  sign_init : SignInTask
  first_water_init : FirstWaterTask
  total_water_task_init : TotalWaterTask
  water_friend_task_init : WaterFriendTask
  got_browse_task_ad_init : BrowseTask
  treasure_box_init : TreasureBoxTask
  water_rain_init : WaterRainTask
  got_three_meal_init : ThreeMealTask

/-- `FollowTask`. -/
structure FollowTask where
  advert_id : String
  id : String
  name : String
  had_got : Bool
  had_follow : Bool

/-- `ClockInTask`. -/
structure ClockInTask where
  today_signed : Bool
  themes : List FollowTask

/-- `CardInfo`. -/
structure CardInfo where
  double_card : Nat -- u16
  fast_card : Nat   -- u16
  sign_card : Nat   -- u16
  bean_card : Nat   -- u16

/-! ## serde decoders (camelCase field names, range-checked integers) -/

def decodeBool (j : Json) : Option Bool := j.as_bool

def decodeString (j : Json) : Option String := j.as_str

def decodeUInt (bits : Nat) (j : Json) : Option Nat :=
  match j with
  | .num n => if 0 ≤ n ∧ n < 2 ^ bits then some n.toNat else none
  | _ => none

def decodeU8 : Json → Option Nat := decodeUInt 8
def decodeU16 : Json → Option Nat := decodeUInt 16
def decodeU32 : Json → Option Nat := decodeUInt 32
def decodeU64 : Json → Option Nat := decodeUInt 64

def decodeJdFarmInfo (j : Json) : Option JdFarmInfo := do
  let total_energy ← decodeU32 (j.index "totalEnergy")
  let tree_state ← decodeU8 (j.index "treeState")
  let tree_energy ← decodeU32 (j.index "treeEnergy")
  let tree_total_energy ← decodeU32 (j.index "treeTotalEnergy")
  let share_code ← decodeString (j.index "shareCode")
  let nick_name ← decodeString (j.index "nickName")
  let name ← decodeString (j.index "name")
  let prize_level ← decodeU8 (j.index "prizeLevel")
  Option.some
    { total_energy, tree_state, tree_energy, tree_total_energy,
      share_code, nick_name, name, prize_level }

def decodeSignInTask (j : Json) : Option SignInTask := do
  let f ← decodeBool (j.index "f")
  Option.some { f }

def decodeFirstWaterTask (j : Json) : Option FirstWaterTask := do
  let f ← decodeBool (j.index "f")
  Option.some { f }

def decodeTotalWaterTask (j : Json) : Option TotalWaterTask := do
  let f ← decodeBool (j.index "f")
  let lim ← decodeU16 (j.index "totalWaterTaskLimit")
  let times ← decodeU16 (j.index "totalWaterTaskTimes")
  Option.some { f, total_water_task_limit := lim, total_water_task_times := times }

def decodeWaterFriendTask (j : Json) : Option WaterFriendTask := do
  let mx ← decodeU8 (j.index "waterFriendMax")
  let count ← decodeU8 (j.index "waterFriendCountKey")
  let f ← decodeBool (j.index "f")
  let got ← decodeBool (j.index "waterFriendGotAward")
  Option.some
    { water_friend_max := mx, water_friend_count_key := count, f,
      water_friend_got_award := got }

def decodeBrowseTaskItem (j : Json) : Option BrowseTaskItem := do
  let advert_id ← decodeString (j.index "advertId")
  let main_title ← decodeString (j.index "mainTitle")
  let lim ← decodeU8 (j.index "limit")
  let had_finished_times ← decodeU8 (j.index "hadFinishedTimes")
  let time ← decodeU16 (j.index "time")
  let had_got_times ← decodeU8 (j.index "hadGotTimes")
  Option.some
    { advert_id, main_title, limit := lim, had_finished_times, time,
      had_got_times }

def decodeBrowseTask (j : Json) : Option BrowseTask := do
  let f ← decodeBool (j.index "f")
  match j.index "userBrowseTaskAds" with
  | .arr items => do
      let ads ← items.mapM decodeBrowseTaskItem
      Option.some { f, user_browse_task_ads := ads }
  | _ => none

def decodeTreasureBoxTask (j : Json) : Option TreasureBoxTask := do
  let line ← decodeString (j.index "line")
  let f ← decodeBool (j.index "f")
  Option.some { line, f }

def decodeWaterRainTask (j : Json) : Option WaterRainTask := do
  let f ← decodeBool (j.index "f")
  let win_times ← decodeU8 (j.index "winTimes")
  let last_time ← decodeU64 (j.index "lastTime")
  Option.some { f, win_times, last_time }

def decodeFriendInfo (j : Json) : Option FriendInfo := do
  let nick_name ← decodeString (j.index "nickName")
  let share_code ← decodeString (j.index "shareCode")
  let friend_state ← decodeU8 (j.index "friendState")
  Option.some { nick_name, share_code, friend_state }

def decodeFriendInfoList (j : Json) : Option FriendInfoList := do
  match j.index "friends" with
  | .arr items => do
      let friends ← items.mapM decodeFriendInfo
      Option.some { friends }
  | _ => none

def decodeThreeMealTask (j : Json) : Option ThreeMealTask := do
  let f ← decodeBool (j.index "f")
  Option.some { f }

def decodeTaskInfo (j : Json) : Option TaskInfo := do
  let sign_init ← decodeSignInTask (j.index "signInit")
  let first_water_init ← decodeFirstWaterTask (j.index "firstWaterInit")
  let total_water_task_init ← decodeTotalWaterTask (j.index "totalWaterTaskInit")
  let water_friend_task_init ← decodeWaterFriendTask (j.index "waterFriendTaskInit")
  let got_browse_task_ad_init ← decodeBrowseTask (j.index "gotBrowseTaskAdInit")
  let treasure_box_init ← decodeTreasureBoxTask (j.index "treasureBoxInit")
  let water_rain_init ← decodeWaterRainTask (j.index "waterRainInit")
  let got_three_meal_init ← decodeThreeMealTask (j.index "gotThreeMealInit")
  Option.some
    { sign_init, first_water_init, total_water_task_init,
      water_friend_task_init, got_browse_task_ad_init, treasure_box_init,
      water_rain_init, got_three_meal_init }

def decodeFollowTask (j : Json) : Option FollowTask := do
  let advert_id ← decodeString (j.index "advertId")
  let id ← decodeString (j.index "id")
  let name ← decodeString (j.index "name")
  let had_got ← decodeBool (j.index "hadGot")
  let had_follow ← decodeBool (j.index "hadFollow")
  Option.some { advert_id, id, name, had_got, had_follow }

def decodeClockInTask (j : Json) : Option ClockInTask := do
  let today_signed ← decodeBool (j.index "todaySigned")
  match j.index "themes" with
  | .arr items => do
      let themes ← items.mapM decodeFollowTask
      Option.some { today_signed, themes }
  | _ => none

def decodeCardInfo (j : Json) : Option CardInfo := do
  let double_card ← decodeU16 (j.index "doubleCard")
  let fast_card ← decodeU16 (j.index "fastCard")
  let sign_card ← decodeU16 (j.index "signCard")
  let bean_card ← decodeU16 (j.index "beanCard")
  Option.some { double_card, fast_card, sign_card, bean_card }

/-! ## Request bodies (the json! literals of src/lib.rs) -/

def initForFarmBody : Json :=
  .obj [("babelChannel", .str "121"), ("sid", .str ""), ("un_area", .str ""),
        ("version", .num 18), ("channel", .num 1)]

def popTaskBody : Json :=
  .obj [("type", .num 3), ("version", .num 18), ("channel", .num 1),
        ("babelChannel", .str "121")]

/-- `{"version":18,"channel":1,"babelChannel":"121"}` — shared by the task
catalog fetch, the watering-award claims, the card-info fetch and the
friend-award claim. -/
def stdBody : Json :=
  .obj [("version", .num 18), ("channel", .num 1), ("babelChannel", .str "121")]

def waterBody : Json :=
  .obj [("type", .str ""), ("version", .num 18), ("channel", .num 1),
        ("babelChannel", .str "121")]

def clockInInitBody : Json :=
  .obj [("version", .num 18), ("channel", .num 3), ("babelChannel", .str "10")]

def treasureBoxBody1 : Json :=
  .obj [("type", .num 1), ("babelChannel", .str "121"), ("version", .num 18),
        ("channel", .num 1)]

def treasureBoxBody2 (line : String) : Json :=
  .obj [("babelChannel", .str "10"), ("line", .str line), ("channel", .num 3),
        ("type", .num 2), ("version", .num 18)]

def browseBody (advertId : String) (ty : Int) : Json :=
  .obj [("babelChannel", .str "10"), ("advertId", .str advertId),
        ("type", .num ty), ("channel", .num 3), ("version", .num 18)]

def waterRainBody (time : Nat) : Json :=
  .obj [("type", .num 1), ("hongBaoTimes", .num (Int.ofNat (time % 5 + 50))),
        ("version", .num 14), ("channel", .num 1)]

def friendListBody : Json :=
  .obj [("lastId", .null), ("version", .num 18), ("channel", .num 1),
        ("babelChannel", .str "121")]

def waterFriendBody (shareCode : String) : Json :=
  .obj [("shareCode", .str shareCode), ("version", .num 18), ("channel", .num 1),
        ("babelChannel", .str "121")]

def clockInSignBody : Json :=
  .obj [("version", .num 18), ("channel", .num 1), ("babelChannel", .str "121"),
        ("type", .num 1)]

def followBody (id : String) (step : Int) : Json :=
  .obj [("id", .str id), ("babelChannel", .str "10"), ("channel", .num 3),
        ("type", .str "theme"), ("step", .num step), ("version", .num 18)]

def useCardBody (cardType : String) : Json :=
  .obj [("cardType", .str cardType), ("babelChannel", .str "10"),
        ("channel", .num 3), ("version", .num 18)]

def duckBody : Json :=
  .obj [("babelChannel", .str "10"), ("channel", .num 3), ("type", .num 2),
        ("version", .num 18)]

def threeMealBody : Json :=
  .obj [("type", .num 0), ("version", .num 18), ("channel", .num 1),
        ("babelChannel", .str "121")]

/-! ## The Gateway and the task handlers (methods of `JClient`) -/

/-- `JClient::request`: emit the call, then classify the outcome.  A `send()`
error propagates through `?` as a raised `Result::Err`; a JSON-decode error
becomes the `{"code":"999",...}` envelope; a JSON value without a `code`
field becomes `{"code":"888"}`; a JSON value with a `code` field is returned
verbatim. -/
def request (env : Nat → NetResult) (function_id : String) (body : Json) :
    M Json := do
  M.emit (Event.call function_id body)
  let r ← M.next env
  match r with
  | NetResult.sendFail => M.throwErr
  | NetResult.decodeFail =>
      pure (Json.obj [("code", Json.str "999"),
                      ("message", Json.str "request failed")])
  | NetResult.json v =>
      if (v.getField "code").isSome then pure v
      else pure (Json.obj [("code", Json.str "888")])

/-- `JClient::is_success`: `data["code"].as_str().unwrap_or("999") == "0"`. -/
def is_success (data : Json) : Bool :=
  ((data.index "code").as_str.getD "999") == "0"

/-- `JClient::get_farm_data`. -/
def get_farm_data (env : Nat → NetResult) : M Json :=
  request env "initForFarm" initForFarmBody

/-- `JClient::get_farm_info`: decode `farmUserPro` from the given (or
freshly fetched) farm data; a serde failure raises `ParseFailure`. -/
def get_farm_info (env : Nat → NetResult) (farm_data : Option Json) :
    M JdFarmInfo := do
  let d ← match farm_data with
    | some d => pure d
    | none => get_farm_data env
  match decodeJdFarmInfo (d.index "farmUserPro") with
  | some info => pure info
  | none => M.throwErr

/-- `JClient::do_pop_task`. -/
def do_pop_task (env : Nat → NetResult) : M Unit := do
  let res ← request env "gotWaterGoalTaskForFarm" popTaskBody
  if is_success res then M.emit (Event.log "pop_task_ok")
  else M.emit (Event.log "pop_task_failed")

/-- `JClient::get_task_info`: the catalog is produced only from a response
whose code is "0" and which decodes as `TaskInfo`. -/
def get_task_info (env : Nat → NetResult) : M TaskInfo := do
  let res ← request env "taskInitForFarm" stdBody
  match is_success res with
  | true =>
      match decodeTaskInfo res with
      | some ti => pure ti
      | none => M.throwErr
  | false => M.throwErr

/-- `JClient::water`: one watering call, returning whether it succeeded. -/
def water (env : Nat → NetResult) : M Bool := do
  let res ← request env "waterGoodForFarm" waterBody
  match is_success res with
  | true => do
      M.emit (Event.log "water_ok")
      pure true
  | false => do
      M.emit (Event.log "water_failed")
      pure false

/-- `JClient::sign_in`: the remote action was retired, the handler is a
no-op. -/
def sign_in : M Unit := pure ()

/-- `JClient::get_card_info`. -/
def get_card_info (env : Nat → NetResult) : M CardInfo := do
  let d ← request env "myCardInfoForFarm" stdBody
  match decodeCardInfo d with
  | some c => pure c
  | none => M.throwErr

/-- `JClient::do_pop_task` re-trigger inside award claiming, plus the award
call itself (`JClient::got_water_task_award`). -/
def got_water_task_award (env : Nat → NetResult) (function_id : String) :
    M Unit := do
  let res ← request env function_id stdBody
  match is_success res with
  | true => do
      M.emit (Event.log "water_task_award_ok")
      let canPop :=
        (((res.index "todayGotWaterGoalTask").index "canPop").as_bool).getD false
      if canPop then M.ignore (do_pop_task env) else pure ()
  | false => M.emit (Event.log "water_task_award_failed")

/-- The `for _ in times..limit` loop of `JClient::do_total_water_task`,
by the number of remaining iterations. -/
def water_loop (env : Nat → NetResult) : Nat → M Unit
  | 0 => pure ()
  | k + 1 => do
      let _b ← water env
      M.emit (Event.sleep 1)
      water_loop env k

/-- `JClient::do_total_water_task`: a Rust range `times..limit` is empty when
`times >= limit`, which truncated `Nat` subtraction captures exactly. -/
def do_total_water_task (env : Nat → NetResult) (task : TotalWaterTask) :
    M Unit := do
  water_loop env (task.total_water_task_limit - task.total_water_task_times)
  got_water_task_award env "totalWaterTaskForFarm"

/-- `JClient::get_clock_in_data`. -/
def get_clock_in_data (env : Nat → NetResult) : M Json := do
  let d ← request env "clockInInitForFarm" clockInInitBody
  match is_success d with
  | true => pure d
  | false => M.throwErr

/-- `JClient::get_clock_in_task`. -/
def get_clock_in_task (env : Nat → NetResult) (data : Option Json) :
    M ClockInTask := do
  let d ← match data with
    | some d => pure d
    | none => get_clock_in_data env
  match decodeClockInTask d with
  | some t => pure t
  | none => M.throwErr

/-- `JClient::do_first_water_task`. -/
def do_first_water_task (env : Nat → NetResult) : M Unit := do
  let b ← water env
  match b with
  | true => got_water_task_award env "firstWaterTaskForFarm"
  | false => M.emit (Event.log "first_water_failed")

/-- `JClient::do_treasure_box_task` (promo-entry). -/
def do_treasure_box_task (env : Nat → NetResult) (task : TreasureBoxTask) :
    M Unit := do
  M.ignore (request env "ddnc_getTreasureBoxAward" treasureBoxBody1)
  M.emit (Event.sleep 1)
  let res ← request env "ddnc_getTreasureBoxAward" (treasureBoxBody2 task.line)
  if is_success res then M.emit (Event.log "treasure_box_ok")
  else M.emit (Event.log "treasure_box_failed")

/-- `JClient::do_browse_task` (ad browsing), by structural recursion over
the item list. -/
def do_browse_task (env : Nat → NetResult) : List BrowseTaskItem → M Unit
  | [] => pure ()
  | task :: rest => do
      if task.had_finished_times ≥ task.limit then do
        M.emit (Event.log "browse_already_done")
        do_browse_task env rest
      else do
        M.ignore (request env "browseAdTaskForFarm" (browseBody task.advert_id 0))
        M.emit (Event.log "browse_waiting")
        M.emit (Event.sleep task.time)
        let r ← M.attempt (request env "browseAdTaskForFarm"
                            (browseBody task.advert_id 1))
        match r with
        | Except.error _ => do
            M.emit (Event.log "browse_request_failed")
            do_browse_task env rest
        | Except.ok data =>
            match is_success data with
            | true => do
                M.emit (Event.log "browse_ok")
                let canPop :=
                  (((data.index "todayGotWaterGoalTask").index "canPop").as_bool).getD
                    false
                if canPop then M.ignore (do_pop_task env) else pure ()
                do_browse_task env rest
            | false => do
                M.emit (Event.log "browse_failed")
                do_browse_task env rest

/-- `JClient::do_water_rain_task`: `now` is the current Unix time in
seconds; the code works with `now * 1000` milliseconds. -/
def do_water_rain_task (env : Nat → NetResult) (now : Nat)
    (task : WaterRainTask) : M Unit := do
  let time := now * 1000
  if time < task.last_time + 3 * 60 * 60 * 1000 then
    M.emit (Event.log "water_rain_not_due")
  else do
    let res ← request env "waterRainForFarm" (waterRainBody time)
    if is_success res then M.emit (Event.log "water_rain_ok")
    else M.emit (Event.log "water_rain_failed")

/-- The friend loop of `JClient::do_water_friend_task`: skip ineligible
friends, water one, decrement the remaining quota, break when it reaches
zero, sleep otherwise. -/
def water_friends_loop (env : Nat → NetResult) :
    List FriendInfo → Nat → M Unit
  | [], _ => pure ()
  | friend :: rest, count => do
      if friend.friend_state == 0 then water_friends_loop env rest count
      else do
        M.ignore (request env "waterFriendForFarm"
                    (waterFriendBody friend.share_code))
        let count1 := count - 1
        if count1 == 0 then pure ()
        else do
          M.emit (Event.sleep 1)
          water_friends_loop env rest count1

/-- `JClient::do_water_friend_task`: the friend list is fetched with a raw
POST (no envelope normalization); any failure there raises. -/
def do_water_friend_task (env : Nat → NetResult) (task : WaterFriendTask) :
    M Unit := do
  if task.water_friend_count_key < task.water_friend_max then do
    M.emit (Event.call "friendListInitForFarm" friendListBody)
    let r ← M.next env
    let data ← match r with
      | NetResult.json v => pure v
      | _ => M.throwErr
    match decodeFriendInfoList data with
    | none => M.throwErr
    | some fl => do
        water_friends_loop env fl.friends
          (task.water_friend_max - task.water_friend_count_key)
        let res ← request env "waterFriendGotAwardForFarm" stdBody
        if is_success res then M.emit (Event.log "water_friend_award_ok")
        else M.emit (Event.log "water_friend_award_failed")
  else pure ()

/-- `JClient::use_card`. -/
def use_card (env : Nat → NetResult) (card_type : String) : M Unit := do
  let res ← request env "userMyCardForFarm" (useCardBody card_type)
  if is_success res then M.emit (Event.log "use_card_ok")
  else M.emit (Event.log "use_card_failed")

/-- The sign-card consumption loop of `JClient::do_clock_in_sign_in_task`. -/
def use_sign_cards (env : Nat → NetResult) : Nat → M Unit
  | 0 => pure ()
  | k + 1 => do
      M.ignore (use_card env "signCard")
      M.emit (Event.sleep 2)
      use_sign_cards env k

/-- `JClient::do_clock_in_sign_in_task`. -/
def do_clock_in_sign_in_task (env : Nat → NetResult) : M Unit := do
  let res ← request env "clockInForFarm" clockInSignBody
  match is_success res with
  | true => do
      M.emit (Event.log "clock_in_sign_ok")
      let card_info ← M.attempt (get_card_info env)
      match card_info with
      | Except.ok card =>
          if card.sign_card > 0 then
            use_sign_cards env (if card.sign_card ≥ 3 then 3 else card.sign_card)
          else pure ()
      | Except.error _ => pure ()
  | false => M.emit (Event.log "clock_in_sign_failed")

/-- `JClient::do_clock_in_follow_task`, by recursion over the theme list. -/
def do_clock_in_follow_task (env : Nat → NetResult) :
    List FollowTask → M Unit
  | [] => pure ()
  | task :: rest => do
      if task.had_got then do_clock_in_follow_task env rest
      else do
        if !task.had_follow then do
          M.ignore (request env "clockInFollowForFarm" (followBody task.id 1))
          M.emit (Event.log "followed")
        else pure ()
        let res ← request env "clockInFollowForFarm" (followBody task.id 2)
        if is_success res then M.emit (Event.log "follow_award_ok")
        else M.emit (Event.log "follow_award_failed")
        do_clock_in_follow_task env rest

/-- `JClient::got_stage_award`: fully commented out in the source. -/
def got_stage_award : M Unit := pure ()

/-- The attempt loop of `JClient::click_duck`, by remaining fuel (10 at the
top).  The daily-limit sentinel code "10" breaks out before the sleep. -/
def click_duck_loop (env : Nat → NetResult) : Nat → M Unit
  | 0 => pure ()
  | fuel + 1 => do
      let res ← request env "getFullCollectionReward" duckBody
      match is_success res with
      | true => do
          M.emit (Event.log "duck_ok")
          M.emit (Event.sleep 2)
          click_duck_loop env fuel
      | false =>
          if ((res.index "code").as_str.getD "999") == "10" then
            M.emit (Event.log "duck_daily_limit")
          else do
            M.emit (Event.log "duck_error")
            M.emit (Event.sleep 2)
            click_duck_loop env fuel

/-- `JClient::click_duck` (collection-reward loop). -/
def click_duck (env : Nat → NetResult) : M Unit :=
  click_duck_loop env 10

/-- The blocked-window predicate of `JClient::got_three_meal`:
`cur_hour >= 21 || (9..11).contains(&cur_hour) || (14..17).contains(&cur_hour)`. -/
def three_meal_blocked (cur_hour : Nat) : Bool :=
  decide (21 ≤ cur_hour) || decide (9 ≤ cur_hour ∧ cur_hour < 11) ||
    decide (14 ≤ cur_hour ∧ cur_hour < 17)

/-- `JClient::got_three_meal`: the blocked window only logs an advisory; the
claim call is issued regardless. -/
def got_three_meal (env : Nat → NetResult) (cur_hour : Nat) : M Unit := do
  if three_meal_blocked cur_hour then
    M.emit (Event.log "three_meal_blocked_window")
  else pure ()
  let res ← request env "gotThreeMealForFarm" threeMealBody
  if is_success res then M.emit (Event.log "three_meal_ok")
  else M.emit (Event.log "three_meal_failed")

/-- Checked u32 subtraction: `a - b` panics in Rust (debug semantics) when
`b > a`; `none` models the panic. -/
def u32_sub (a b : Nat) : Option Nat :=
  if b ≤ a then some (a - b) else none

/-- The farm progress report of `JClient::run` (both occurrences): logs the
snapshot, computing `tree_total_energy - tree_energy` in u32. -/
def farm_report (info : JdFarmInfo) : M Unit :=
  match u32_sub info.tree_total_energy info.tree_energy with
  | some _ => M.emit (Event.log "farm_report")
  | none => M.throwPanic

/-- The recurring catalog-gate pattern of `JClient::run`:
`if !done { handler } else { log skip }`. -/
def gated (done : Bool) (skipTag : String) (handler : M Unit) : M Unit :=
  if !done then handler else M.emit (Event.log skipTag)

/-- The opportunistic pop-reward step of `JClient::run`:
`if can_do_pop_task { let _ = self.do_pop_task().await; }`. -/
def pop_when (env : Nat → NetResult) (canPop : Bool) : M Unit :=
  if canPop then M.ignore (do_pop_task env) else M.pure ()

/-- The card-inventory logging step of `JClient::run` (a failure here only
logs; it does not abort the run). -/
def run_log_card_info (ci : Except Unit CardInfo) : M Unit :=
  match ci with
  | Except.ok _ => M.emit (Event.log "run_card_info")
  | Except.error _ => M.emit (Event.log "run_card_info_failed")

/-- The double-card step of `JClient::run`: re-fetch farm snapshot and card
inventory; when both succeed, balance is at least 100 and a double-reward
card is available, consume one. -/
def run_double_card (env : Nat → NetResult) : M Unit := do
  let fi2 ← M.attempt (get_farm_info env none)
  match fi2 with
  | Except.ok farm_info2 => do
      let ci2 ← M.attempt (get_card_info env)
      match ci2 with
      | Except.ok card_info2 =>
          if farm_info2.total_energy ≥ 100 ∧ card_info2.double_card ≥ 1 then
            M.ignore (use_card env "doubleCard")
          else pure ()
      | Except.error _ => pure ()
  | Except.error _ => pure ()

/-- `JClient::run`: the single-pass orchestrator.  `now` is the Unix time in
seconds, `cur_hour` the local hour in UTC+8. -/
def run (env : Nat → NetResult) (now : Nat) (cur_hour : Nat) : M Unit := do
  let fd ← M.attempt (get_farm_data env)
  match fd with
  | Except.error _ => M.emit (Event.log "run_farm_fetch_failed")
  | Except.ok farm_data => do
    let can_do_pop_task :=
      (((farm_data.index "todayGotWaterGoalTask").index "canPop").as_bool).getD
        false
    let fi ← M.attempt (get_farm_info env (some farm_data))
    match fi with
    | Except.error _ => M.emit (Event.log "run_farm_info_failed")
    | Except.ok farm_info => do
      farm_report farm_info
      let ci ← M.attempt (get_card_info env)
      run_log_card_info ci
      pop_when env can_do_pop_task
      let ti ← M.attempt (get_task_info env)
      match ti with
      | Except.error _ => M.emit (Event.log "run_task_info_failed")
      | Except.ok task_info => do
        gated task_info.sign_init.f "skip_sign_in" (M.ignore sign_in)
        gated task_info.got_three_meal_init.f "skip_three_meal"
          (M.ignore (got_three_meal env cur_hour))
        gated task_info.treasure_box_init.f "skip_treasure_box"
          (M.ignore (do_treasure_box_task env task_info.treasure_box_init))
        gated task_info.got_browse_task_ad_init.f "skip_browse"
          (M.ignore (do_browse_task env
            task_info.got_browse_task_ad_init.user_browse_task_ads))
        gated task_info.water_rain_init.f "skip_water_rain"
          (M.ignore (do_water_rain_task env now task_info.water_rain_init))
        gated task_info.water_friend_task_init.f "skip_water_friend"
          (M.ignore (do_water_friend_task env
            task_info.water_friend_task_init))
        let clock_in_task ← get_clock_in_task env none
        gated clock_in_task.today_signed "skip_clock_in_sign"
          (M.ignore (do_clock_in_sign_in_task env))
        M.ignore (do_clock_in_follow_task env clock_in_task.themes)
        M.ignore (click_duck env)
        run_double_card env
        gated task_info.first_water_init.f "skip_first_water"
          (M.ignore (do_first_water_task env))
        gated task_info.total_water_task_init.f "skip_total_water"
          (M.ignore (do_total_water_task env task_info.total_water_task_init))
        M.ignore got_stage_award
        let fi3 ← M.attempt (get_farm_info env none)
        match fi3 with
        | Except.ok farm_info3 => farm_report farm_info3
        | Except.error _ => pure ()

/-! ## Trace projections -/

/-- The function ids of the call events of a trace. -/
def callIds (tr : List Event) : List String :=
  tr.filterMap fun e =>
    match e with
    | Event.call fid _ => some fid
    | _ => none

/-- The call events of a trace. -/
def callEvents (tr : List Event) : List Event :=
  tr.filter fun e =>
    match e with
    | Event.call _ _ => true
    | _ => false

/-- The events a computation emits when started at response index `n`. -/
def M.eventsOf (m : M α) (n : Nat) : List Event := (m n).2.2

/-- The result of a computation started at response index `n`. -/
def M.resultOf (m : M α) (n : Nat) : Except Failure α := (m n).1

/-- Specification-side classification of the Gateway outcome (§4.2 of the
spec, amended to the code's behaviour): a send failure raises, a decode
failure becomes the 999 envelope, JSON without a `code` field becomes the
888 envelope, JSON with a `code` field is returned verbatim. -/
def gatewayResult : NetResult → Except Failure Json
  | NetResult.sendFail => Except.error Failure.err
  | NetResult.decodeFail =>
      Except.ok (Json.obj [("code", Json.str "999"),
                           ("message", Json.str "request failed")])
  | NetResult.json v =>
      Except.ok (if (v.getField "code").isSome then v
                 else Json.obj [("code", Json.str "888")])

/-- A network outcome carrying the daily-limit sentinel of `click_duck`:
a JSON response whose `code` field reads "10". -/
def sentinel : NetResult → Bool
  | NetResult.json v => ((v.index "code").as_str.getD "999") == "10"
  | _ => false

/-- Function ids a run may always call, whatever the catalog flags say. -/
def baseIds : List String :=
  ["initForFarm", "myCardInfoForFarm", "gotWaterGoalTaskForFarm",
   "taskInitForFarm", "clockInInitForFarm", "clockInForFarm",
   "userMyCardForFarm", "clockInFollowForFarm", "getFullCollectionReward"]

/-- Function ids `run` may call given the catalog `ti`: the base ids plus,
for every task whose done flag is unset, that task's own ids. -/
def allowedIds (ti : TaskInfo) : List String :=
  baseIds ++
  (if ti.got_three_meal_init.f then [] else ["gotThreeMealForFarm"]) ++
  (if ti.treasure_box_init.f then [] else ["ddnc_getTreasureBoxAward"]) ++
  (if ti.got_browse_task_ad_init.f then [] else ["browseAdTaskForFarm"]) ++
  (if ti.water_rain_init.f then [] else ["waterRainForFarm"]) ++
  (if ti.water_friend_task_init.f then []
   else ["friendListInitForFarm", "waterFriendForFarm",
         "waterFriendGotAwardForFarm"]) ++
  (if ti.first_water_init.f then []
   else ["waterGoodForFarm", "firstWaterTaskForFarm"]) ++
  (if ti.total_water_task_init.f then []
   else ["waterGoodForFarm", "totalWaterTaskForFarm"])

/-- Every call a computation can emit, from any response index, targets a
function id in `S`. -/
def Calls (m : M α) (S : List String) : Prop :=
  ∀ n, ∀ fid ∈ callIds (M.eventsOf m n), fid ∈ S

/-- `a` is a result the computation can actually produce. -/
def Reachable (m : M α) (a : α) : Prop :=
  ∃ n, M.resultOf m n = Except.ok a

/-- The friends eligible for watering (`friend_state != 0`). -/
def eligibleFriends (fs : List FriendInfo) : List FriendInfo :=
  fs.filter fun f => !(f.friend_state == 0)

/-! # Theorems

## Plumbing: applying the monad operations -/

theorem M.bind_eq (m : M α) (f : α → M β) : m >>= f = M.bind m f := rfl

theorem M.pure_eq (a : α) : (Pure.pure a : M α) = M.pure a := rfl

theorem M.bind_apply_ok {m : M α} {f : α → M β} {n n1 n2 : Nat} {a : α}
    {t1 t2 : List Event} {r : Except Failure β}
    (hm : m n = (Except.ok a, n1, t1)) (hf : f a n1 = (r, n2, t2)) :
    M.bind m f n = (r, n2, t1 ++ t2) := by
  simp [M.bind, hm, hf]

theorem M.bind_apply_err {m : M α} {f : α → M β} {n n1 : Nat}
    {e : Failure} {t1 : List Event}
    (hm : m n = (Except.error e, n1, t1)) :
    M.bind m f n = (Except.error e, n1, t1) := by
  simp [M.bind, hm]

/-- `JClient::request`, fully characterised: it always emits exactly one
call event, consumes exactly one network response, and classifies it
via `gatewayResult`. -/
theorem request_apply (env : Nat → NetResult) (fid : String) (body : Json)
    (n : Nat) :
    request env fid body n =
      (gatewayResult (env n), n + 1, [Event.call fid body]) := by
  cases h : env n <;>
    simp [request, M.bind_eq, M.pure_eq, M.bind, M.emit, M.next, M.throwErr,
      M.pure, gatewayResult, h] <;>
    split_ifs <;> simp [M.pure]

theorem M.eventsOf_bind (m : M α) (f : α → M β) (n : Nat) :
    M.eventsOf (M.bind m f) n =
      M.eventsOf m n ++
        (match (m n).1 with
         | Except.ok a => M.eventsOf (f a) (m n).2.1
         | Except.error _ => []) := by
  unfold M.eventsOf M.bind
  rcases h : m n with ⟨r, n1, t1⟩
  cases r with
  | ok a =>
      rcases hf : f a n1 with ⟨r2, n2, t2⟩
      simp [h, hf]
  | error e => simp [h]

theorem M.eventsOf_pure (a : α) (n : Nat) :
    M.eventsOf (M.pure a) n = [] := rfl

theorem M.eventsOf_emit (e : Event) (n : Nat) :
    M.eventsOf (M.emit e) n = [e] := rfl

theorem M.eventsOf_throwErr (n : Nat) :
    M.eventsOf (M.throwErr : M α) n = [] := rfl

theorem M.eventsOf_throwPanic (n : Nat) :
    M.eventsOf (M.throwPanic : M α) n = [] := rfl

theorem M.attempt_apply (m : M α) (n : Nat) :
    M.attempt m n =
      (match (m n).1 with
       | Except.ok a => Except.ok (Except.ok a)
       | Except.error Failure.err => Except.ok (Except.error ())
       | Except.error Failure.panic => Except.error Failure.panic,
       (m n).2.1, (m n).2.2) := by
  unfold M.attempt
  rcases h : m n with ⟨r, n1, t1⟩
  cases r with
  | ok a => simp [h]
  | error e => cases e <;> simp [h]

theorem M.eventsOf_attempt (m : M α) (n : Nat) :
    M.eventsOf (M.attempt m) n = M.eventsOf m n := by
  unfold M.eventsOf
  rw [M.attempt_apply]

theorem M.eventsOf_ignore (m : M α) (n : Nat) :
    M.eventsOf (M.ignore m) n = M.eventsOf m n := by
  unfold M.ignore
  rw [M.eventsOf_bind, M.attempt_apply]
  rcases h : m n with ⟨r, n1, t1⟩
  cases r with
  | ok a => simp [M.eventsOf, M.attempt_apply, h, M.pure]
  | error e => cases e <;> simp [M.eventsOf, M.attempt_apply, h, M.pure]

theorem M.nextIdx_ignore (m : M α) (n : Nat) :
    (M.ignore m n).2.1 = (m n).2.1 := by
  unfold M.ignore M.bind
  rw [M.attempt_apply]
  rcases h : m n with ⟨r, n1, t1⟩
  cases r with
  | ok a => simp [h, M.pure]
  | error e => cases e <;> simp [h, M.pure]

theorem M.resultOf_ignore_of_ok {m : M α} {n : Nat} {a : α}
    (h : (m n).1 = Except.ok a) :
    M.ignore m n = (Except.ok (), (m n).2.1, (m n).2.2) := by
  unfold M.ignore M.bind
  rw [M.attempt_apply, h]
  simp [M.pure]

theorem callIds_nil : callIds [] = [] := rfl

theorem callIds_cons_log (t : String) (rest : List Event) :
    callIds (Event.log t :: rest) = callIds rest := rfl

theorem callIds_cons_sleep (s : Nat) (rest : List Event) :
    callIds (Event.sleep s :: rest) = callIds rest := rfl

theorem callIds_cons_call (fid : String) (body : Json) (rest : List Event) :
    callIds (Event.call fid body :: rest) = fid :: callIds rest := rfl

theorem callIds_append (t1 t2 : List Event) :
    callIds (t1 ++ t2) = callIds t1 ++ callIds t2 := by
  unfold callIds
  exact List.filterMap_append t1 t2 _

theorem callEvents_append (t1 t2 : List Event) :
    callEvents (t1 ++ t2) = callEvents t1 ++ callEvents t2 := by
  unfold callEvents
  exact List.filter_append t1 t2

/-- A recurring handler tail: one request whose response is only used to
choose between two log lines.  It always emits exactly one call. -/
theorem callIds_log_ite (p : Prop) [Decidable p] (t1 t2 : String) (k : Nat) :
    callIds (M.eventsOf
      (if p then M.emit (Event.log t1) else M.emit (Event.log t2)) k) = [] := by
  split_ifs <;> rfl

theorem request_events (env : Nat → NetResult) (fid : String) (body : Json)
    (m : Nat) :
    M.eventsOf (request env fid body) m = [Event.call fid body] := by
  unfold M.eventsOf
  rw [request_apply]

theorem callIds_request_then_log_ite (env : Nat → NetResult) (fid : String)
    (body : Json) (t1 t2 : String) (m : Nat) :
    callIds (M.eventsOf (M.bind (request env fid body)
      (fun res =>
        if is_success res then M.emit (Event.log t1)
        else M.emit (Event.log t2))) m) = [fid] := by
  rw [M.eventsOf_bind, callIds_append, request_events]
  cases hr : (request env fid body m).1 with
  | ok a =>
      simp only [hr]
      rw [callIds_log_ite]
      rfl
  | error e =>
      simp only [hr]
      rfl

theorem M.eventsOf_bind_emit (e : Event) (k : Unit → M β) (n : Nat) :
    M.eventsOf (M.bind (M.emit e) k) n = e :: M.eventsOf (k ()) n := by
  rw [M.eventsOf_bind]
  simp [M.emit, M.eventsOf]

theorem M.eventsOf_bind_pure (a : α) (k : α → M β) (n : Nat) :
    M.eventsOf (M.bind (M.pure a) k) n = M.eventsOf (k a) n := by
  rw [M.eventsOf_bind]
  simp [M.pure, M.eventsOf]

/-! ## C1 — the Gateway's outcome classification

The claim as frozen says a transport failure also becomes a `"999"`
envelope and the operation never raises.  The code (`src/lib.rs:283`) uses
`?` on `send().await`, so a transport send failure propagates as a raised
error to the caller; only a body-deserialization failure is absorbed into
the `"999"` envelope.  The claim is therefore corrected. -/

/-- C1 counterexample: on a transport send failure, `JClient::request`
raises a `Result::Err` to its caller instead of returning an envelope with
code "999" — refuting the frozen claim's transport-failure case. -/
theorem c1_counterexample :
    M.resultOf (request (fun _ => NetResult.sendFail) "initForFarm"
      initForFarmBody) 0 = Except.error Failure.err := rfl

/-- C1 (amended): for every action identifier and body, a deserialization
failure yields the envelope with code "999", a valid JSON response lacking
a `code` field yields the envelope with code "888", a valid JSON response
with a `code` field is returned verbatim, and a transport send failure
propagates as a raised error to the caller; in each case exactly one call
is emitted and one response consumed. -/
theorem c1_gateway_classification (env : Nat → NetResult) (fid : String)
    (body : Json) (n : Nat) :
    (env n = NetResult.sendFail →
      request env fid body n =
        (Except.error Failure.err, n + 1, [Event.call fid body])) ∧
    (env n = NetResult.decodeFail →
      request env fid body n =
        (Except.ok (Json.obj [("code", Json.str "999"),
            ("message", Json.str "request failed")]),
         n + 1, [Event.call fid body])) ∧
    (∀ v, env n = NetResult.json v → (v.getField "code").isSome →
      request env fid body n =
        (Except.ok v, n + 1, [Event.call fid body])) ∧
    (∀ v, env n = NetResult.json v → ¬ (v.getField "code").isSome = true →
      request env fid body n =
        (Except.ok (Json.obj [("code", Json.str "888")]),
         n + 1, [Event.call fid body])) := by
  refine ⟨fun h => ?_, fun h => ?_, fun v h hc => ?_, fun v h hc => ?_⟩
  · rw [request_apply, h]
    rfl
  · rw [request_apply, h]
    rfl
  · rw [request_apply, h]
    simp [gatewayResult, hc]
  · rw [request_apply, h]
    simp [gatewayResult, hc]

/-- C1 witness: the deserialization-failure case at a concrete input. -/
theorem c1_witness :
    request (fun _ => NetResult.decodeFail) "initForFarm" initForFarmBody 0 =
      (Except.ok (Json.obj [("code", Json.str "999"),
          ("message", Json.str "request failed")]),
       1, [Event.call "initForFarm" initForFarmBody]) :=
  (c1_gateway_classification (fun _ => NetResult.decodeFail) "initForFarm"
    initForFarmBody 0).2.1 rfl

/-! ## C10 — the centralized success predicate -/

/-- C10: `is_success` holds iff the envelope's `code` field is present and
is the JSON string "0"; in particular the JSON number 0 is classified as a
failure. -/
theorem c10_is_success_iff :
    (∀ v : Json, is_success v = true ↔ v.index "code" = Json.str "0") ∧
    is_success (Json.obj [("code", Json.num 0)]) = false := by
  constructor
  · intro v
    cases h : v.index "code" <;>
      simp [is_success, Json.index, h, Json.as_str] at * <;>
      simp [h]
  · rfl

/-! ## C4 — the water-rain cooldown gate -/

/-- C4: the water-rain handler issues zero network calls when less than 3
hours (in milliseconds) have elapsed since `last_time`, and exactly one
network call once at least 3 hours have elapsed — the 3-hour boundary
included. -/
theorem c4_water_rain_gate (env : Nat → NetResult) (now : Nat)
    (task : WaterRainTask) (n : Nat) :
    (now * 1000 < task.last_time + 3 * 60 * 60 * 1000 →
      callIds (M.eventsOf (do_water_rain_task env now task) n) = []) ∧
    (task.last_time + 3 * 60 * 60 * 1000 ≤ now * 1000 →
      callIds (M.eventsOf (do_water_rain_task env now task) n) =
        ["waterRainForFarm"]) := by
  constructor
  · intro h
    simp [do_water_rain_task, if_pos h, M.eventsOf_emit, callIds,
      List.filterMap]
  · intro h
    have hnot : ¬ now * 1000 < task.last_time + 3 * 60 * 60 * 1000 :=
      not_lt.mpr h
    simp only [do_water_rain_task, if_neg hnot, M.bind_eq]
    exact callIds_request_then_log_ite env "waterRainForFarm"
      (waterRainBody (now * 1000)) "water_rain_ok" "water_rain_failed" n

/-- C4 witness: scenario C of the spec at concrete inputs.  With
`now = 100000` seconds and `last_time` two hours earlier (in ms) the
handler issues no call; with `last_time` four hours earlier it issues
exactly one. -/
theorem c4_witness :
    callIds (M.eventsOf (do_water_rain_task (fun _ => NetResult.decodeFail)
      100000 { f := false, win_times := 0,
               last_time := 100000 * 1000 - 2 * 60 * 60 * 1000 }) 0) = [] ∧
    callIds (M.eventsOf (do_water_rain_task (fun _ => NetResult.decodeFail)
      100000 { f := false, win_times := 0,
               last_time := 100000 * 1000 - 4 * 60 * 60 * 1000 }) 0) =
      ["waterRainForFarm"] :=
  ⟨(c4_water_rain_gate _ _ _ _).1 (by norm_num),
   (c4_water_rain_gate _ _ _ _).2 (by norm_num)⟩

/-! ## C2 — the ten-waters quota -/

/-- A generic step: `M.bind` of a request whose gateway outcome is `ok`. -/
theorem bind_request_apply (env : Nat → NetResult) (fid : String)
    (body : Json) (k : Json → M β) (n : Nat) :
    M.bind (request env fid body) k n =
      match gatewayResult (env n) with
      | Except.ok v =>
          ((k v (n + 1)).1, (k v (n + 1)).2.1,
            Event.call fid body :: (k v (n + 1)).2.2)
      | Except.error e => (Except.error e, n + 1, [Event.call fid body]) := by
  unfold M.bind
  rw [request_apply]
  cases gatewayResult (env n) with
  | ok v =>
      rcases hk : k v (n + 1) with ⟨r, n2, t2⟩
      simp [hk]
  | error e => simp

/-- `JClient::water` on a response that is not a transport send failure:
it returns `Ok`, consumes one response and emits one call plus one log. -/
theorem water_apply (env : Nat → NetResult) (n : Nat)
    (h : env n ≠ NetResult.sendFail) :
    ∃ (b : Bool) (tag : String), water env n =
      (Except.ok b, n + 1,
       [Event.call "waterGoodForFarm" waterBody, Event.log tag]) := by
  simp only [water, M.bind_eq, M.pure_eq]
  rw [bind_request_apply]
  cases hg : env n with
  | sendFail => exact absurd hg h
  | decodeFail =>
      refine ⟨false, "water_failed", ?_⟩
      simp [gatewayResult, M.bind, M.emit, M.pure, is_success, Json.index,
        Json.getField, Json.as_str]
  | json v =>
      simp only [gatewayResult]
      split_ifs with hc
      · cases hs : is_success v with
        | true =>
            refine ⟨true, "water_ok", ?_⟩
            simp [hs, M.bind, M.emit, M.pure]
        | false =>
            refine ⟨false, "water_failed", ?_⟩
            simp [hs, M.bind, M.emit, M.pure]
      · refine ⟨false, "water_failed", ?_⟩
        simp [is_success, Json.index, Json.getField, Json.as_str, M.bind,
          M.emit, M.pure]

/-- The watering loop: given no transport send failure among its `k`
responses, it succeeds, consumes exactly `k` responses and issues exactly
`k` watering calls. -/
theorem water_loop_spec (env : Nat → NetResult) :
    ∀ (k n : Nat), (∀ i, i < k → env (n + i) ≠ NetResult.sendFail) →
      (water_loop env k n).1 = Except.ok () ∧
      (water_loop env k n).2.1 = n + k ∧
      callIds (water_loop env k n).2.2 =
        List.replicate k "waterGoodForFarm" := by
  intro k
  induction k with
  | zero =>
      intro n _
      exact ⟨rfl, rfl, rfl⟩
  | succ k ih =>
      intro n h
      obtain ⟨b, tag, hw⟩ := water_apply env n (by
        have := h 0 (Nat.succ_pos k)
        simpa using this)
      have hrest := ih (n + 1) (fun i hi => by
        have h2 := h (i + 1) (Nat.succ_lt_succ hi)
        have : n + (i + 1) = n + 1 + i := by omega
        rwa [this] at h2)
      rcases hl : water_loop env k (n + 1) with ⟨r, n2, t⟩
      rw [hl] at hrest
      have hinner : M.bind (M.emit (Event.sleep 1))
          (fun _ => water_loop env k) (n + 1) =
          (r, n2, [Event.sleep 1] ++ t) :=
        M.bind_apply_ok rfl hl
      have houter : M.bind (water env)
          (fun _b => M.bind (M.emit (Event.sleep 1))
            (fun _ => water_loop env k)) n =
          (r, n2,
            [Event.call "waterGoodForFarm" waterBody, Event.log tag] ++
              ([Event.sleep 1] ++ t)) :=
        M.bind_apply_ok hw hinner
      simp only [water_loop, M.bind_eq, M.pure_eq]
      rw [houter]
      obtain ⟨h1, h2, h3⟩ := hrest
      have h1' : r = Except.ok () := h1
      have h2' : n2 = n + 1 + k := h2
      have h3' : callIds t = List.replicate k "waterGoodForFarm" := h3
      subst h1'
      refine ⟨rfl, ?_, ?_⟩
      · show n2 = n + (k + 1)
        omega
      · show callIds
            ([Event.call "waterGoodForFarm" waterBody, Event.log tag] ++
              ([Event.sleep 1] ++ t)) =
            List.replicate (k + 1) "waterGoodForFarm"
        rw [callIds_append, callIds_append, callIds_cons_call,
          callIds_cons_log, callIds_nil, callIds_cons_sleep, callIds_nil,
          h3']
        simp [List.replicate_succ]

/-- `JClient::do_pop_task` issues exactly one call. -/
theorem do_pop_task_calls (env : Nat → NetResult) (m : Nat) :
    callIds (M.eventsOf (do_pop_task env) m) = ["gotWaterGoalTaskForFarm"] := by
  simp only [do_pop_task, M.bind_eq]
  exact callIds_request_then_log_ite env "gotWaterGoalTaskForFarm" popTaskBody
    "pop_task_ok" "pop_task_failed" m

/-- `JClient::got_water_task_award` issues the award call first, optionally
followed by one pop-reward call (when the award response signals a pop),
and nothing else. -/
theorem got_water_task_award_calls (env : Nat → NetResult) (fid : String)
    (m : Nat) :
    ∃ tail, callIds (M.eventsOf (got_water_task_award env fid) m) =
      fid :: tail ∧ (tail = [] ∨ tail = ["gotWaterGoalTaskForFarm"]) := by
  simp only [got_water_task_award, M.bind_eq, M.pure_eq]
  rw [M.eventsOf_bind, callIds_append, request_events]
  cases hr : (request env fid stdBody m).1 with
  | error e =>
      refine ⟨[], ?_, Or.inl rfl⟩
      simp [hr, callIds, List.filterMap]
  | ok v =>
      simp only [hr]
      cases hs : is_success v with
      | false =>
          refine ⟨[], ?_, Or.inl rfl⟩
          simp [hs, callIds, List.filterMap, M.eventsOf, M.emit]
      | true =>
          simp only [hs]
          rw [M.eventsOf_bind_emit]
          cases hp : (((v.index "todayGotWaterGoalTask").index
              "canPop").as_bool).getD false with
          | false =>
              refine ⟨[], ?_, Or.inl rfl⟩
              simp [hp, callIds, List.filterMap, M.eventsOf, M.pure]
          | true =>
              refine ⟨["gotWaterGoalTaskForFarm"], ?_, Or.inr rfl⟩
              simp only [hp, if_true]
              rw [callIds_cons_log, M.eventsOf_ignore, do_pop_task_calls]
              rfl

/-- C2: given transport send failures do not occur during the watering
responses, the ten-waters handler issues exactly
`limit - alreadyDone` (truncated at 0, so no underflow) watering calls,
followed by exactly one aggregate claim call — possibly trailed by one
opportunistic pop-reward call, and nothing else. -/
theorem c2_total_water_quota (env : Nat → NetResult) (task : TotalWaterTask)
    (n : Nat)
    (h : ∀ i, i < task.total_water_task_limit - task.total_water_task_times →
      env (n + i) ≠ NetResult.sendFail) :
    ∃ tail,
      callIds (M.eventsOf (do_total_water_task env task) n) =
        List.replicate (task.total_water_task_limit -
          task.total_water_task_times) "waterGoodForFarm" ++
          "totalWaterTaskForFarm" :: tail ∧
      (tail = [] ∨ tail = ["gotWaterGoalTaskForFarm"]) := by
  obtain ⟨h1, h2, h3⟩ := water_loop_spec env
    (task.total_water_task_limit - task.total_water_task_times) n h
  obtain ⟨tail, ht, hd⟩ := got_water_task_award_calls env
    "totalWaterTaskForFarm"
    (n + (task.total_water_task_limit - task.total_water_task_times))
  refine ⟨tail, ?_, hd⟩
  simp only [do_total_water_task, M.bind_eq]
  rw [M.eventsOf_bind, callIds_append]
  simp only [M.eventsOf] at ht ⊢
  simp only [h1, h2, h3, ht]

/-- C2 witness: scenario B of the spec — limit 10, 7 already done, all
responses successful envelopes: exactly 3 watering calls, then the single
aggregate claim call. -/
theorem c2_witness :
    ∃ tail,
      callIds (M.eventsOf (do_total_water_task
        (fun _ => NetResult.json (Json.obj [("code", Json.str "0")]))
        { f := false, total_water_task_limit := 10,
          total_water_task_times := 7 }) 0) =
        List.replicate 3 "waterGoodForFarm" ++
          "totalWaterTaskForFarm" :: tail ∧
      (tail = [] ∨ tail = ["gotWaterGoalTaskForFarm"]) :=
  c2_total_water_quota
    (fun _ => NetResult.json (Json.obj [("code", Json.str "0")]))
    { f := false, total_water_task_limit := 10, total_water_task_times := 7 }
    0 (fun _ _ hc => NetResult.noConfusion hc)

/-! ## C3 — the collection-reward loop -/

theorem Json.as_str_eq_some {j : Json} {s : String}
    (h : j.as_str = some s) : j = Json.str s := by
  cases j <;> simp [Json.as_str] at h
  simp [h]

theorem Json.getField_isSome_of_index_str {v : Json} {k : String}
    {s : String} (h : v.index k = Json.str s) : (v.getField k).isSome := by
  unfold Json.index at h
  cases hf : v.getField k with
  | none => rw [hf] at h; cases h
  | some j => simp

/-- A response carrying the daily-limit sentinel passes the gateway as-is
(it must be JSON with `code` being the string "10"), fails `is_success`,
and triggers the in-code sentinel comparison. -/
theorem sentinel_spec (env : Nat → NetResult) (m : Nat)
    (h : sentinel (env m) = true) :
    ∃ v, gatewayResult (env m) = Except.ok v ∧ is_success v = false ∧
      (((v.index "code").as_str.getD "999") == "10") = true := by
  cases hg : env m with
  | sendFail => simp [sentinel, hg] at h
  | decodeFail => simp [sentinel, hg] at h
  | json v =>
      have hcode : ((v.index "code").as_str.getD "999") = "10" := by
        have h2 := h
        rw [hg] at h2
        simpa [sentinel] using h2
      have hsome : (v.getField "code").isSome := by
        cases hst : (v.index "code").as_str with
        | none =>
            rw [hst] at hcode
            exact absurd hcode (by decide)
        | some s =>
            exact Json.getField_isSome_of_index_str (Json.as_str_eq_some hst)
      refine ⟨v, by simp [gatewayResult, hsome], ?_, by simp [hcode]⟩
      simp [is_success, hcode]

/-- A non-sentinel response that is not a transport send failure yields an
envelope whose sentinel comparison is false. -/
theorem notsentinel_spec (env : Nat → NetResult) (m : Nat)
    (h1 : sentinel (env m) = false) (h2 : env m ≠ NetResult.sendFail) :
    ∃ v, gatewayResult (env m) = Except.ok v ∧
      (((v.index "code").as_str.getD "999") == "10") = false := by
  cases hg : env m with
  | sendFail => exact absurd hg h2
  | decodeFail => exact ⟨_, rfl, by decide⟩
  | json v =>
      by_cases hsome : (v.getField "code").isSome
      · refine ⟨v, by simp [gatewayResult, hsome], ?_⟩
        have h3 := h1
        rw [hg] at h3
        simpa [sentinel] using h3
      · exact ⟨Json.obj [("code", Json.str "888")],
          by simp [gatewayResult, hsome], by decide⟩

theorem click_duck_loop_len (env : Nat → NetResult) :
    ∀ (fuel n : Nat),
      (callIds (M.eventsOf (click_duck_loop env fuel) n)).length ≤ fuel := by
  intro fuel
  induction fuel with
  | zero => intro n; simp [click_duck_loop, M.eventsOf, M.pure_eq, M.pure,
      callIds, List.filterMap]
  | succ f ih =>
      intro n
      simp only [click_duck_loop, M.bind_eq, M.pure_eq]
      rw [M.eventsOf_bind, callIds_append, request_events]
      cases hr : (request env "getFullCollectionReward" duckBody n).1 with
      | error e =>
          simp [hr, callIds, List.filterMap]
      | ok v =>
          simp only [hr]
          cases hs : is_success v with
          | true =>
              rw [M.eventsOf_bind_emit, M.eventsOf_bind_emit]
              have hrec := ih ((request env "getFullCollectionReward"
                duckBody n).2.1)
              simp only [callIds_cons_call, callIds_cons_log,
                callIds_cons_sleep, callIds_nil, List.length_append,
                List.length_cons, List.length_nil]
              omega
          | false =>
              cases hc : ((v.index "code").as_str.getD "999") == "10" with
              | true =>
                  simp [hc, M.eventsOf, M.emit, callIds, List.filterMap]
              | false =>
                  simp only [hc, Bool.false_eq_true, if_false]
                  rw [M.eventsOf_bind_emit, M.eventsOf_bind_emit]
                  have hrec := ih ((request env "getFullCollectionReward"
                    duckBody n).2.1)
                  simp only [callIds_cons_call, callIds_cons_log,
                    callIds_cons_sleep, callIds_nil, List.length_append,
                    List.length_cons, List.length_nil]
                  omega

theorem click_duck_loop_sentinel (env : Nat → NetResult) :
    ∀ (fuel j n : Nat), j < fuel → sentinel (env (n + j)) = true →
      (∀ i, i < j → sentinel (env (n + i)) = false ∧
        env (n + i) ≠ NetResult.sendFail) →
      callIds (M.eventsOf (click_duck_loop env fuel) n) =
        List.replicate (j + 1) "getFullCollectionReward" := by
  intro fuel
  induction fuel with
  | zero => intro j n hj; omega
  | succ f ih =>
      intro j n hj hsent hbefore
      simp only [click_duck_loop, M.bind_eq, M.pure_eq]
      rw [M.eventsOf_bind, callIds_append, request_events]
      cases j with
      | zero =>
          obtain ⟨v, hg, hsucc, hcode⟩ := sentinel_spec env n
            (by simpa using hsent)
          have hr : (request env "getFullCollectionReward" duckBody n).1 =
              Except.ok v := by
            rw [request_apply, hg]
          simp only [hr, hsucc, hcode, if_true]
          simp [M.eventsOf, M.emit, callIds, List.filterMap,
            List.replicate]
      | succ j' =>
          obtain ⟨hs0, hn0⟩ := hbefore 0 (Nat.succ_pos j')
          obtain ⟨v, hg, hcodef⟩ := notsentinel_spec env n
            (by simpa using hs0) (by simpa using hn0)
          have hr : (request env "getFullCollectionReward" duckBody n).1 =
              Except.ok v := by
            rw [request_apply, hg]
          have hidx : (request env "getFullCollectionReward" duckBody n).2.1 =
              n + 1 := by
            rw [request_apply]
          have hrec := ih j' (n + 1) (by omega)
            (by
              have h2 := hsent
              have : n + (j' + 1) = n + 1 + j' := by omega
              rwa [this] at h2)
            (fun i hi => by
              have h2 := hbefore (i + 1) (Nat.succ_lt_succ hi)
              have : n + (i + 1) = n + 1 + i := by omega
              rwa [this] at h2)
          simp only [hr, hidx]
          cases hs : is_success v with
          | true =>
              rw [M.eventsOf_bind_emit, M.eventsOf_bind_emit]
              simp only [callIds_cons_call, callIds_cons_log,
                callIds_cons_sleep, callIds_nil, hrec]
              simp [List.replicate_succ]
          | false =>
              simp only [hcodef, Bool.false_eq_true, if_false]
              rw [M.eventsOf_bind_emit, M.eventsOf_bind_emit]
              simp only [callIds_cons_call, callIds_cons_log,
                callIds_cons_sleep, callIds_nil, hrec]
              simp [List.replicate_succ]

/-- C3: the collection-reward loop issues at most 10 attempt calls, and —
for every response sequence without transport send failures before the
sentinel — stops immediately after the first response whose failure code
is the daily-limit sentinel "10", even on attempt 1 (`j = 0`). -/
theorem c3_click_duck_bounded (env : Nat → NetResult) (n : Nat) :
    (callIds (M.eventsOf (click_duck env) n)).length ≤ 10 ∧
    (∀ j, j < 10 → sentinel (env (n + j)) = true →
      (∀ i, i < j → sentinel (env (n + i)) = false ∧
        env (n + i) ≠ NetResult.sendFail) →
      callIds (M.eventsOf (click_duck env) n) =
        List.replicate (j + 1) "getFullCollectionReward") := by
  constructor
  · simpa only [click_duck] using click_duck_loop_len env 10 n
  · intro j hj hs hb
    simpa only [click_duck] using
      click_duck_loop_sentinel env 10 j n hj hs hb

/-- C3 witness: a sentinel response on the very first attempt stops the
loop after exactly one call. -/
theorem c3_witness :
    (callIds (M.eventsOf (click_duck
      (fun _ => NetResult.json (Json.obj [("code", Json.str "10")]))) 0)).length
      ≤ 10 ∧
    callIds (M.eventsOf (click_duck
      (fun _ => NetResult.json (Json.obj [("code", Json.str "10")]))) 0) =
      List.replicate 1 "getFullCollectionReward" :=
  ⟨(c3_click_duck_bounded
      (fun _ => NetResult.json (Json.obj [("code", Json.str "10")])) 0).1,
   (c3_click_duck_bounded
      (fun _ => NetResult.json (Json.obj [("code", Json.str "10")])) 0).2
      0 (by decide) (by decide) (fun i hi => (Nat.not_lt_zero i hi).elim)⟩

/-! ## C5 — the ad-browsing handler -/

theorem M.bind_emit_apply (e : Event) (k : Unit → M β) (m : Nat) :
    M.bind (M.emit e) k m =
      ((k () m).1, (k () m).2.1, e :: (k () m).2.2) := by
  unfold M.bind M.emit
  rcases hk : k () m with ⟨r, n2, t⟩
  simp [hk]

theorem ignore_request_apply (env : Nat → NetResult) (fid : String)
    (body : Json) (n : Nat) :
    M.ignore (request env fid body) n =
      (Except.ok (), n + 1, [Event.call fid body]) := by
  unfold M.ignore M.bind
  rw [M.attempt_apply, request_apply]
  cases hg : env n <;> simp [gatewayResult, M.pure] <;> split_ifs <;>
    simp [M.pure]

theorem attempt_request_apply (env : Nat → NetResult) (fid : String)
    (body : Json) (n : Nat) :
    M.attempt (request env fid body) n =
      (Except.ok (match gatewayResult (env n) with
        | Except.ok v => Except.ok v
        | Except.error _ => (Except.error () : Except Unit Json)),
       n + 1, [Event.call fid body]) := by
  rw [M.attempt_apply, request_apply]
  cases hg : env n <;> simp [gatewayResult] <;> split_ifs <;> simp

theorem M.bind_attempt_request_apply (env : Nat → NetResult) (fid : String)
    (body : Json) (K : Except Unit Json → M β) (m : Nat)
    (r : Except Unit Json)
    (hr : (match gatewayResult (env m) with
           | Except.ok v => Except.ok v
           | Except.error _ => (Except.error () : Except Unit Json)) = r) :
    M.bind (M.attempt (request env fid body)) K m =
      ((K r (m + 1)).1, (K r (m + 1)).2.1,
       Event.call fid body :: (K r (m + 1)).2.2) := by
  subst hr
  unfold M.bind
  rw [attempt_request_apply]
  rcases hk : K (match gatewayResult (env m) with
    | Except.ok v => Except.ok v
    | Except.error _ => (Except.error () : Except Unit Json)) (m + 1)
    with ⟨r2, n2, t2⟩
  simp [hk]

/-- C5 counterexample: an under-limit ad item whose claim response succeeds
and signals an available pop reward produces three network calls (start,
claim, pop-reward claim), refuting "exactly two network calls ... regardless
of whether the claim succeeds or fails". -/
theorem c5_counterexample :
    callIds (M.eventsOf (do_browse_task
      (fun _ => NetResult.json (Json.obj [("code", Json.str "0"),
        ("todayGotWaterGoalTask",
          Json.obj [("canPop", Json.bool true)])]))
      [{ advert_id := "a1", main_title := "t1", limit := 1,
         had_finished_times := 0, time := 5, had_got_times := 0 }]) 0) =
      ["browseAdTaskForFarm", "browseAdTaskForFarm",
       "gotWaterGoalTaskForFarm"] ∧
    (callIds (M.eventsOf (do_browse_task
      (fun _ => NetResult.json (Json.obj [("code", Json.str "0"),
        ("todayGotWaterGoalTask",
          Json.obj [("canPop", Json.bool true)])]))
      [{ advert_id := "a1", main_title := "t1", limit := 1,
         had_finished_times := 0, time := 5, had_got_times := 0 }]) 0)).length
      ≠ 2 := by
  constructor
  · rfl
  · decide

/-- C5 (amended): an ad item already at its daily limit produces zero
network calls; an item under the limit produces exactly the two browse
calls — a start call, then after a sleep equal to the item's wait time, a
claim call — followed by at most one opportunistic pop-reward claim call
(present exactly when the claim response succeeds and signals a pop), and
no other calls. -/
theorem c5_browse_task_calls (env : Nat → NetResult) (item : BrowseTaskItem)
    (n : Nat) :
    (item.had_finished_times < item.limit →
      ∃ rest, M.eventsOf (do_browse_task env [item]) n =
        Event.call "browseAdTaskForFarm" (browseBody item.advert_id 0) ::
        Event.log "browse_waiting" ::
        Event.sleep item.time ::
        Event.call "browseAdTaskForFarm" (browseBody item.advert_id 1) ::
          rest ∧
        (callIds rest = [] ∨ callIds rest = ["gotWaterGoalTaskForFarm"])) ∧
    (item.limit ≤ item.had_finished_times →
      callIds (M.eventsOf (do_browse_task env [item]) n) = []) := by
  constructor
  · intro h
    have hne : ¬ item.had_finished_times ≥ item.limit := not_le.mpr h
    simp only [do_browse_task, if_neg hne, M.bind_eq, M.pure_eq]
    rw [M.eventsOf_bind]
    simp only [M.eventsOf, ignore_request_apply]
    simp only [M.bind_emit_apply]
    cases hrv : (match gatewayResult (env (n + 1)) with
        | Except.ok v => Except.ok v
        | Except.error _ => (Except.error () : Except Unit Json)) with
    | error e =>
        refine ⟨[Event.log "browse_request_failed"], ?_, Or.inl rfl⟩
        rw [M.bind_attempt_request_apply env _ _ _ (n + 1) _ hrv]
        simp [M.bind_emit_apply, do_browse_task, M.pure]
    | ok data =>
        rw [M.bind_attempt_request_apply env _ _ _ (n + 1) _ hrv]
        cases hs : is_success data with
        | false =>
            refine ⟨[Event.log "browse_failed"], ?_, Or.inl rfl⟩
            simp [hs, M.bind_emit_apply, do_browse_task, M.pure]
        | true =>
            cases hp : (((data.index "todayGotWaterGoalTask").index
                "canPop").as_bool).getD false with
            | false =>
                refine ⟨[Event.log "browse_ok"], ?_, Or.inl rfl⟩
                simp [hs, hp, M.bind_emit_apply, do_browse_task, M.pure,
                  M.bind, M.emit]
            | true =>
                refine ⟨Event.log "browse_ok" ::
                  M.eventsOf (M.ignore (do_pop_task env)) (n + 1 + 1), ?_,
                  Or.inr ?_⟩
                · simp only [hs, hp, if_true, M.bind_emit_apply]
                  rcases hpop : M.ignore (do_pop_task env) (n + 1 + 1)
                    with ⟨rp, np, tp⟩
                  have hrp : rp = Except.ok () := by
                    have h1 : (M.ignore (do_pop_task env) (n + 1 + 1)).1 =
                        rp := by rw [hpop]
                    rw [← h1]
                    unfold M.ignore M.bind
                    rw [M.attempt_apply]
                    rcases hq : do_pop_task env (n + 1 + 1) with ⟨rq, nq, tq⟩
                    cases rq with
                    | ok a => simp [hq, M.pure]
                    | error e =>
                        cases e with
                        | err => simp [hq, M.pure]
                        | panic =>
                            exfalso
                            have : (do_pop_task env (n + 1 + 1)).1 =
                                Except.error Failure.panic := by rw [hq]
                            revert this
                            simp only [do_pop_task, M.bind_eq]
                            rw [bind_request_apply]
                            cases hg2 : gatewayResult (env (n + 1 + 1)) with
                            | ok v2 =>
                                cases h2 : is_success v2 <;>
                                  simp [h2, M.emit]
                            | error e2 =>
                                cases hg3 : env (n + 1 + 1) <;>
                                  rw [hg3] at hg2 <;>
                                  simp [gatewayResult] at hg2 <;>
                                  first
                                  | (rw [← hg2]; simp)
                                  | skip
                  subst hrp
                  simp [M.bind, hpop, do_browse_task, M.pure, M.eventsOf]
                · simp only [M.eventsOf_ignore]
                  rw [callIds_cons_log, do_pop_task_calls]
  · intro h
    have hge : item.had_finished_times ≥ item.limit := h
    simp only [do_browse_task, if_pos hge, M.bind_eq, M.pure_eq]
    rw [M.eventsOf_bind]
    simp [M.eventsOf, M.emit, M.pure, do_browse_task, callIds,
      List.filterMap]

/-- C5 witness for the amended claim: an at-limit item produces zero calls;
an under-limit item with a failing claim response produces exactly the two
browse calls with the wait-time sleep between them. -/
theorem c5_witness :
    (∃ rest, M.eventsOf (do_browse_task (fun _ => NetResult.decodeFail)
      [{ advert_id := "a1", main_title := "t1", limit := 1,
         had_finished_times := 0, time := 5, had_got_times := 0 }]) 0 =
        Event.call "browseAdTaskForFarm" (browseBody "a1" 0) ::
        Event.log "browse_waiting" ::
        Event.sleep 5 ::
        Event.call "browseAdTaskForFarm" (browseBody "a1" 1) :: rest ∧
        (callIds rest = [] ∨ callIds rest = ["gotWaterGoalTaskForFarm"])) ∧
    callIds (M.eventsOf (do_browse_task (fun _ => NetResult.decodeFail)
      [{ advert_id := "a2", main_title := "t2", limit := 1,
         had_finished_times := 1, time := 5, had_got_times := 0 }]) 0) =
      [] :=
  ⟨(c5_browse_task_calls (fun _ => NetResult.decodeFail)
      { advert_id := "a1", main_title := "t1", limit := 1,
        had_finished_times := 0, time := 5, had_got_times := 0 } 0).1
      (by decide),
   (c5_browse_task_calls (fun _ => NetResult.decodeFail)
      { advert_id := "a2", main_title := "t2", limit := 1,
        had_finished_times := 1, time := 5, had_got_times := 0 } 0).2
      (by decide)⟩

/-! ## C8 — the water-two-friends task -/

theorem callEvents_nil : callEvents [] = [] := rfl

theorem callEvents_cons_log (t : String) (rest : List Event) :
    callEvents (Event.log t :: rest) = callEvents rest := rfl

theorem callEvents_cons_sleep (s : Nat) (rest : List Event) :
    callEvents (Event.sleep s :: rest) = callEvents rest := rfl

theorem callEvents_cons_call (fid : String) (body : Json)
    (rest : List Event) :
    callEvents (Event.call fid body :: rest) =
      Event.call fid body :: callEvents rest := rfl

theorem callEvents_log_ite (p : Prop) [Decidable p] (t1 t2 : String)
    (k : Nat) :
    callEvents (M.eventsOf
      (if p then M.emit (Event.log t1) else M.emit (Event.log t2)) k) = [] := by
  split_ifs <;> rfl

theorem callEvents_request_then_log_ite (env : Nat → NetResult)
    (fid : String) (body : Json) (t1 t2 : String) (m : Nat) :
    callEvents (M.eventsOf (M.bind (request env fid body)
      (fun res =>
        if is_success res then M.emit (Event.log t1)
        else M.emit (Event.log t2))) m) = [Event.call fid body] := by
  rw [M.eventsOf_bind, callEvents_append, request_events]
  cases hr : (request env fid body m).1 with
  | ok a =>
      simp only [hr]
      rw [callEvents_log_ite]
      rfl
  | error e =>
      simp only [hr]
      rfl

theorem M.eventsOf_bind_next (env : Nat → NetResult) (k : NetResult → M β)
    (n : Nat) :
    M.eventsOf (M.bind (M.next env) k) n = M.eventsOf (k (env n)) (n + 1) := by
  rw [M.eventsOf_bind]
  simp [M.next, M.eventsOf]

/-- The friend-watering loop: with a positive remaining quota `c`, it
succeeds and its network calls are exactly one watering call per eligible
friend, in order, truncated at the quota. -/
theorem water_friends_loop_spec (env : Nat → NetResult) :
    ∀ (fs : List FriendInfo) (c n : Nat), 1 ≤ c →
      ∃ n2 t, water_friends_loop env fs c n = (Except.ok (), n2, t) ∧
        callEvents t = ((eligibleFriends fs).take c).map
          (fun fr => Event.call "waterFriendForFarm"
            (waterFriendBody fr.share_code)) := by
  intro fs
  induction fs with
  | nil =>
      intro c n _
      exact ⟨n, [], rfl, by simp [eligibleFriends, callEvents_nil]⟩
  | cons friend rest ih =>
      intro c n hc
      obtain ⟨m, rfl⟩ : ∃ m, c = m + 1 :=
        ⟨c - 1, (Nat.succ_pred_eq_of_pos hc).symm⟩
      simp only [water_friends_loop, M.bind_eq, M.pure_eq,
        Nat.add_sub_cancel]
      cases hst : friend.friend_state == 0 with
      | true =>
          obtain ⟨n2, t, hloop, hev⟩ := ih (m + 1) n hc
          refine ⟨n2, t, ?_, ?_⟩
          · simp only [hst, if_true]
            exact hloop
          · rw [hev]
            simp [eligibleFriends, hst]
      | false =>
          simp only [hst, Bool.false_eq_true, if_false]
          cases hm : m == 0 with
          | true =>
              have hm0 : m = 0 := by simpa using hm
              subst hm0
              exact ⟨n + 1, _,
                M.bind_apply_ok (ignore_request_apply env "waterFriendForFarm"
                  (waterFriendBody friend.share_code) n) rfl,
                by simp [eligibleFriends, hst, callEvents_append,
                  callEvents_cons_call, callEvents_nil]⟩
          | false =>
              have hm1 : 1 ≤ m := by
                cases m with
                | zero => simp at hm
                | succ k => omega
              obtain ⟨n2, t, hloop, hev⟩ := ih m (n + 1) hm1
              simp only [hm, Bool.false_eq_true, if_false]
              refine ⟨n2, _,
                M.bind_apply_ok (ignore_request_apply env "waterFriendForFarm"
                  (waterFriendBody friend.share_code) n)
                  (M.bind_apply_ok rfl hloop), ?_⟩
              rw [callEvents_append, callEvents_append,
                callEvents_cons_call, callEvents_nil,
                callEvents_cons_sleep, callEvents_nil, hev]
              simp [eligibleFriends, hst, List.take_succ_cons]

/-- C8: with remaining quota `max - current > 0` and a decodable friend
list, the handler's network calls are exactly: the friend-list fetch, one
watering call per eligible friend up to the remaining quota (ineligible
friends skipped, stopping once the quota is met), then exactly one
aggregate claim call — even when no friend is eligible.  With remaining
quota 0 it performs nothing at all. -/
theorem c8_water_friend_task (env : Nat → NetResult)
    (task : WaterFriendTask) (v : Json) (fs : List FriendInfo) (n : Nat) :
    (task.water_friend_count_key < task.water_friend_max →
      env n = NetResult.json v →
      decodeFriendInfoList v = some { friends := fs } →
      callEvents (M.eventsOf (do_water_friend_task env task) n) =
        Event.call "friendListInitForFarm" friendListBody ::
          (((eligibleFriends fs).take
              (task.water_friend_max - task.water_friend_count_key)).map
            (fun fr => Event.call "waterFriendForFarm"
              (waterFriendBody fr.share_code)) ++
           [Event.call "waterFriendGotAwardForFarm" stdBody])) ∧
    (task.water_friend_max ≤ task.water_friend_count_key →
      M.eventsOf (do_water_friend_task env task) n = []) := by
  constructor
  · intro h1 h2 h3
    obtain ⟨n2, t, hloop, hev⟩ := water_friends_loop_spec env fs
      (task.water_friend_max - task.water_friend_count_key) (n + 1)
      (by omega)
    simp only [do_water_friend_task, if_pos h1, M.bind_eq, M.pure_eq]
    rw [M.eventsOf_bind_emit, M.eventsOf_bind_next, h2]
    rw [M.eventsOf_bind_pure]
    simp only [h3]
    rw [M.eventsOf_bind]
    simp only [hloop, M.eventsOf]
    rw [callEvents_cons_call, callEvents_append, hev]
    have haw := callEvents_request_then_log_ite env
      "waterFriendGotAwardForFarm" stdBody "water_friend_award_ok"
      "water_friend_award_failed" n2
    simp only [M.eventsOf] at haw
    rw [haw]
  · intro h
    have hne : ¬ task.water_friend_count_key < task.water_friend_max :=
      not_lt.mpr h
    simp only [do_water_friend_task, if_neg hne]
    rfl

/-- C8 witness: quota 2, three friends of which the middle one is
ineligible — the handler fetches the list, waters the two eligible friends
and claims once; with quota 0 it does nothing. -/
theorem c8_witness :
    callEvents (M.eventsOf (do_water_friend_task
      (fun _ => NetResult.json (Json.obj [("friends", Json.arr
        [Json.obj [("nickName", Json.str "a"), ("shareCode", Json.str "s1"),
                   ("friendState", Json.num 1)],
         Json.obj [("nickName", Json.str "b"), ("shareCode", Json.str "s2"),
                   ("friendState", Json.num 0)],
         Json.obj [("nickName", Json.str "c"), ("shareCode", Json.str "s3"),
                   ("friendState", Json.num 1)]])]))
      { water_friend_max := 2, water_friend_count_key := 0, f := false,
        water_friend_got_award := false }) 0) =
      Event.call "friendListInitForFarm" friendListBody ::
        (Event.call "waterFriendForFarm" (waterFriendBody "s1") ::
         Event.call "waterFriendForFarm" (waterFriendBody "s3") ::
         [Event.call "waterFriendGotAwardForFarm" stdBody]) ∧
    M.eventsOf (do_water_friend_task (fun _ => NetResult.decodeFail)
      { water_friend_max := 2, water_friend_count_key := 2, f := false,
        water_friend_got_award := false }) 0 = [] :=
  ⟨(c8_water_friend_task
      (fun _ => NetResult.json (Json.obj [("friends", Json.arr
        [Json.obj [("nickName", Json.str "a"), ("shareCode", Json.str "s1"),
                   ("friendState", Json.num 1)],
         Json.obj [("nickName", Json.str "b"), ("shareCode", Json.str "s2"),
                   ("friendState", Json.num 0)],
         Json.obj [("nickName", Json.str "c"), ("shareCode", Json.str "s3"),
                   ("friendState", Json.num 1)]])]))
      { water_friend_max := 2, water_friend_count_key := 0, f := false,
        water_friend_got_award := false }
      (Json.obj [("friends", Json.arr
        [Json.obj [("nickName", Json.str "a"), ("shareCode", Json.str "s1"),
                   ("friendState", Json.num 1)],
         Json.obj [("nickName", Json.str "b"), ("shareCode", Json.str "s2"),
                   ("friendState", Json.num 0)],
         Json.obj [("nickName", Json.str "c"), ("shareCode", Json.str "s3"),
                   ("friendState", Json.num 1)]])])
      [{ nick_name := "a", share_code := "s1", friend_state := 1 },
       { nick_name := "b", share_code := "s2", friend_state := 0 },
       { nick_name := "c", share_code := "s3", friend_state := 1 }]
      0).1 (by decide) rfl rfl,
   (c8_water_friend_task (fun _ => NetResult.decodeFail)
      { water_friend_max := 2, water_friend_count_key := 2, f := false,
        water_friend_got_award := false } Json.null [] 0).2 (by decide)⟩

/-! ## C9 — the progress report's unsigned subtraction -/

/-- C9: the report's u32 subtraction `tree_total_energy - tree_energy` is
defined (panic-free) exactly when `tree_energy <= tree_total_energy`; for a
farm snapshot violating that precondition, `run` aborts with a panic at the
report step instead of producing a value. -/
theorem c9_report_underflow :
    (∀ a b : Nat, (u32_sub a b).isSome ↔ b ≤ a) ∧
    (∀ (env : Nat → NetResult) (now cur_hour : Nat) (v : Json)
      (info : JdFarmInfo),
      env 0 = NetResult.json v →
      (v.getField "code").isSome = true →
      decodeJdFarmInfo (v.index "farmUserPro") = some info →
      info.tree_total_energy < info.tree_energy →
      M.resultOf (run env now cur_hour) 0 = Except.error Failure.panic) := by
  constructor
  · intro a b
    simp only [u32_sub]
    split_ifs with h
    · simp [h]
    · simp [h]
  · intro env now cur_hour v info h2 hc h3 h4
    have hgfd : get_farm_data env 0 =
        (Except.ok v, 1, [Event.call "initForFarm" initForFarmBody]) := by
      unfold get_farm_data
      rw [request_apply, h2]
      simp [gatewayResult, hc]
    have hgfi : get_farm_info env (some v) 1 = (Except.ok info, 1, []) := by
      simp only [get_farm_info, M.bind_eq, M.pure_eq]
      simp [h3, M.bind, M.pure]
    have hne : ¬ info.tree_energy ≤ info.tree_total_energy := not_le.mpr h4
    simp only [run, M.resultOf, M.bind_eq, M.pure_eq]
    simp [M.bind, M.attempt_apply, hgfd, hgfi, farm_report, u32_sub, hne,
      M.throwPanic, M.pure]

/-- C9 witness: a snapshot with `tree_energy = 10 > tree_total_energy = 3`
makes the subtraction undefined and the run abort with a panic. -/
theorem c9_witness :
    ((u32_sub 3 10).isSome ↔ 10 ≤ 3) ∧
    M.resultOf (run (fun _ => NetResult.json
      (Json.obj [("code", Json.str "0"),
        ("farmUserPro", Json.obj
          [("totalEnergy", Json.num 5), ("treeState", Json.num 1),
           ("treeEnergy", Json.num 10), ("treeTotalEnergy", Json.num 3),
           ("shareCode", Json.str "x"), ("nickName", Json.str "y"),
           ("name", Json.str "z"), ("prizeLevel", Json.num 1)])]))
      0 0) 0 = Except.error Failure.panic :=
  ⟨c9_report_underflow.1 3 10,
   c9_report_underflow.2
     (fun _ => NetResult.json
       (Json.obj [("code", Json.str "0"),
         ("farmUserPro", Json.obj
           [("totalEnergy", Json.num 5), ("treeState", Json.num 1),
            ("treeEnergy", Json.num 10), ("treeTotalEnergy", Json.num 3),
            ("shareCode", Json.str "x"), ("nickName", Json.str "y"),
            ("name", Json.str "z"), ("prizeLevel", Json.num 1)])]))
     0 0
     (Json.obj [("code", Json.str "0"),
       ("farmUserPro", Json.obj
         [("totalEnergy", Json.num 5), ("treeState", Json.num 1),
          ("treeEnergy", Json.num 10), ("treeTotalEnergy", Json.num 3),
          ("shareCode", Json.str "x"), ("nickName", Json.str "y"),
          ("name", Json.str "z"), ("prizeLevel", Json.num 1)])])
     { total_energy := 5, tree_state := 1, tree_energy := 10,
       tree_total_energy := 3, share_code := "x", nick_name := "y",
       name := "z", prize_level := 1 }
     rfl rfl rfl (by decide)⟩

/-! ## C6 — catalog gating in the orchestrator

The strategy: `Calls m S` bounds the set of function ids a computation can
ever call.  Composition lemmas mirror the monad operations; one lemma per
handler gives its id set; the master lemma bounds `run`'s calls by
`allowedIds ti`, in which a task's ids appear only when its done-flag is
unset. -/

theorem calls_pure (a : α) (S : List String) : Calls (M.pure a) S := by
  intro n fid hf
  simp [M.eventsOf, M.pure, callIds, List.filterMap] at hf

theorem calls_bind {m : M α} {f : α → M β} {S : List String}
    (hm : Calls m S) (hf : ∀ a, Reachable m a → Calls (f a) S) :
    Calls (M.bind m f) S := by
  intro n fid hfid
  rw [M.eventsOf_bind, callIds_append] at hfid
  rcases List.mem_append.mp hfid with h | h
  · exact hm n fid h
  · cases hr : (m n).1 with
    | ok a =>
        simp only [hr] at h
        exact hf a ⟨n, hr⟩ _ fid h
    | error e =>
        simp only [hr] at h
        simp [callIds, List.filterMap] at h

theorem calls_bind_simple {m : M α} {f : α → M β} {S : List String}
    (hm : Calls m S) (hf : ∀ a, Calls (f a) S) : Calls (M.bind m f) S :=
  calls_bind hm (fun a _ => hf a)

theorem calls_emit_log (t : String) (S : List String) :
    Calls (M.emit (Event.log t)) S := by
  intro n fid hf
  simp [M.eventsOf, M.emit, callIds, List.filterMap] at hf

theorem calls_emit_sleep (s : Nat) (S : List String) :
    Calls (M.emit (Event.sleep s)) S := by
  intro n fid hf
  simp [M.eventsOf, M.emit, callIds, List.filterMap] at hf

theorem calls_emit_call (fid : String) (body : Json) (S : List String)
    (h : fid ∈ S) : Calls (M.emit (Event.call fid body)) S := by
  intro n f hf
  simp [M.eventsOf, M.emit, callIds, List.filterMap] at hf
  rwa [hf]

theorem calls_next (env : Nat → NetResult) (S : List String) :
    Calls (M.next env) S := by
  intro n fid hf
  simp [M.eventsOf, M.next, callIds, List.filterMap] at hf

theorem calls_throwErr (S : List String) : Calls (M.throwErr : M α) S := by
  intro n fid hf
  simp [M.eventsOf, M.throwErr, callIds, List.filterMap] at hf

theorem calls_throwPanic (S : List String) :
    Calls (M.throwPanic : M α) S := by
  intro n fid hf
  simp [M.eventsOf, M.throwPanic, callIds, List.filterMap] at hf

theorem calls_request (env : Nat → NetResult) (fid : String) (body : Json)
    (S : List String) (h : fid ∈ S) : Calls (request env fid body) S := by
  intro n f hf
  rw [request_events] at hf
  simp [callIds, List.filterMap] at hf
  rwa [hf]

theorem calls_attempt {m : M α} {S : List String} (hm : Calls m S) :
    Calls (M.attempt m) S := by
  intro n
  rw [M.eventsOf_attempt]
  exact hm n

theorem calls_ignore {m : M α} {S : List String} (hm : Calls m S) :
    Calls (M.ignore m) S := by
  intro n
  rw [M.eventsOf_ignore]
  exact hm n

theorem calls_ite (p : Prop) [Decidable p] {m1 m2 : M α} {S : List String}
    (h1 : Calls m1 S) (h2 : Calls m2 S) :
    Calls (if p then m1 else m2) S := by
  split_ifs <;> assumption

theorem calls_ite_cond (p : Prop) [Decidable p] {m1 m2 : M α}
    {S : List String} (h1 : p → Calls m1 S) (h2 : ¬ p → Calls m2 S) :
    Calls (if p then m1 else m2) S := by
  split_ifs with h
  · exact h1 h
  · exact h2 h

/-! Per-handler call-set lemmas. -/

theorem calls_get_farm_data (env : Nat → NetResult) (S : List String)
    (h : "initForFarm" ∈ S) : Calls (get_farm_data env) S :=
  calls_request env _ _ S h

theorem calls_get_farm_info (env : Nat → NetResult) (farm_data : Option Json)
    (S : List String) (h : "initForFarm" ∈ S) :
    Calls (get_farm_info env farm_data) S := by
  simp only [get_farm_info, M.bind_eq, M.pure_eq]
  split
  · refine calls_bind_simple (calls_pure _ S) ?_
    intro d
    split
    · exact calls_pure _ S
    · exact calls_throwErr S
  · refine calls_bind_simple (calls_get_farm_data env S h) ?_
    intro d
    split
    · exact calls_pure _ S
    · exact calls_throwErr S

theorem calls_farm_report (info : JdFarmInfo) (S : List String) :
    Calls (farm_report info) S := by
  unfold farm_report
  cases u32_sub info.tree_total_energy info.tree_energy with
  | some v => exact calls_emit_log _ S
  | none => exact calls_throwPanic S

theorem calls_do_pop_task (env : Nat → NetResult) (S : List String)
    (h : "gotWaterGoalTaskForFarm" ∈ S) : Calls (do_pop_task env) S := by
  simp only [do_pop_task, M.bind_eq]
  exact calls_bind_simple (calls_request env _ _ S h)
    (fun a => calls_ite _ (calls_emit_log _ S) (calls_emit_log _ S))

theorem calls_get_card_info (env : Nat → NetResult) (S : List String)
    (h : "myCardInfoForFarm" ∈ S) : Calls (get_card_info env) S := by
  simp only [get_card_info, M.bind_eq, M.pure_eq]
  refine calls_bind_simple (calls_request env _ _ S h) ?_
  intro d
  split
  · exact calls_pure _ S
  · exact calls_throwErr S

theorem calls_get_task_info (env : Nat → NetResult) (S : List String)
    (h : "taskInitForFarm" ∈ S) : Calls (get_task_info env) S := by
  simp only [get_task_info, M.bind_eq, M.pure_eq]
  refine calls_bind_simple (calls_request env _ _ S h) ?_
  intro res
  split
  · split
    · exact calls_pure _ S
    · exact calls_throwErr S
  · exact calls_throwErr S

theorem calls_water (env : Nat → NetResult) (S : List String)
    (h : "waterGoodForFarm" ∈ S) : Calls (water env) S := by
  simp only [water, M.bind_eq, M.pure_eq]
  refine calls_bind_simple (calls_request env _ _ S h) ?_
  intro res
  split
  · exact calls_bind_simple (calls_emit_log _ S) (fun _ => calls_pure true S)
  · exact calls_bind_simple (calls_emit_log _ S) (fun _ => calls_pure false S)

theorem calls_sign_in (S : List String) : Calls sign_in S := calls_pure () S

theorem calls_got_stage_award (S : List String) : Calls got_stage_award S :=
  calls_pure () S

theorem calls_got_water_task_award (env : Nat → NetResult) (fid : String)
    (S : List String) (h1 : fid ∈ S) (h2 : "gotWaterGoalTaskForFarm" ∈ S) :
    Calls (got_water_task_award env fid) S := by
  simp only [got_water_task_award, M.bind_eq, M.pure_eq]
  refine calls_bind_simple (calls_request env _ _ S h1) ?_
  intro res
  split
  · refine calls_bind_simple (calls_emit_log _ S) ?_
    intro _
    split
    · exact calls_ignore (calls_do_pop_task env S h2)
    · exact calls_pure () S
  · exact calls_emit_log _ S

theorem calls_water_loop (env : Nat → NetResult) (k : Nat)
    (S : List String) (h : "waterGoodForFarm" ∈ S) :
    Calls (water_loop env k) S := by
  induction k with
  | zero => exact calls_pure () S
  | succ k ih =>
      simp only [water_loop, M.bind_eq, M.pure_eq]
      exact calls_bind_simple (calls_water env S h)
        (fun _ => calls_bind_simple (calls_emit_sleep 1 S) (fun _ => ih))

theorem calls_do_total_water_task (env : Nat → NetResult)
    (task : TotalWaterTask) (S : List String)
    (h1 : "waterGoodForFarm" ∈ S) (h2 : "totalWaterTaskForFarm" ∈ S)
    (h3 : "gotWaterGoalTaskForFarm" ∈ S) :
    Calls (do_total_water_task env task) S := by
  simp only [do_total_water_task, M.bind_eq]
  exact calls_bind_simple (calls_water_loop env _ S h1)
    (fun _ => calls_got_water_task_award env _ S h2 h3)

theorem calls_do_first_water_task (env : Nat → NetResult) (S : List String)
    (h1 : "waterGoodForFarm" ∈ S) (h2 : "firstWaterTaskForFarm" ∈ S)
    (h3 : "gotWaterGoalTaskForFarm" ∈ S) :
    Calls (do_first_water_task env) S := by
  simp only [do_first_water_task, M.bind_eq]
  refine calls_bind_simple (calls_water env S h1) ?_
  intro b
  split
  · exact calls_got_water_task_award env _ S h2 h3
  · exact calls_emit_log _ S

theorem calls_got_three_meal (env : Nat → NetResult) (cur_hour : Nat)
    (S : List String) (h : "gotThreeMealForFarm" ∈ S) :
    Calls (got_three_meal env cur_hour) S := by
  simp only [got_three_meal, M.bind_eq, M.pure_eq]
  split
  · refine calls_bind_simple (calls_emit_log _ S) ?_
    intro _
    refine calls_bind_simple (calls_request env _ _ S h) ?_
    intro res
    split
    · exact calls_emit_log _ S
    · exact calls_emit_log _ S
  · refine calls_bind_simple (calls_pure _ S) ?_
    intro _
    refine calls_bind_simple (calls_request env _ _ S h) ?_
    intro res
    split
    · exact calls_emit_log _ S
    · exact calls_emit_log _ S

theorem calls_do_treasure_box_task (env : Nat → NetResult)
    (task : TreasureBoxTask) (S : List String)
    (h : "ddnc_getTreasureBoxAward" ∈ S) :
    Calls (do_treasure_box_task env task) S := by
  simp only [do_treasure_box_task, M.bind_eq, M.pure_eq]
  refine calls_bind_simple (calls_ignore (calls_request env _ _ S h)) ?_
  intro _
  refine calls_bind_simple (calls_emit_sleep 1 S) ?_
  intro _
  refine calls_bind_simple (calls_request env _ _ S h) ?_
  intro res
  split
  · exact calls_emit_log _ S
  · exact calls_emit_log _ S

theorem calls_do_browse_task (env : Nat → NetResult)
    (l : List BrowseTaskItem) (S : List String)
    (h1 : "browseAdTaskForFarm" ∈ S) (h2 : "gotWaterGoalTaskForFarm" ∈ S) :
    Calls (do_browse_task env l) S := by
  induction l with
  | nil => exact calls_pure () S
  | cons task rest ih =>
      simp only [do_browse_task, M.bind_eq, M.pure_eq]
      split
      · exact calls_bind_simple (calls_emit_log _ S) (fun _ => ih)
      · refine calls_bind_simple (calls_ignore (calls_request env _ _ S h1))
          ?_
        intro _
        refine calls_bind_simple (calls_emit_log _ S) ?_
        intro _
        refine calls_bind_simple (calls_emit_sleep _ S) ?_
        intro _
        refine calls_bind_simple
          (calls_attempt (calls_request env _ _ S h1)) ?_
        intro r
        split
        · exact calls_bind_simple (calls_emit_log _ S) (fun _ => ih)
        · split
          · refine calls_bind_simple (calls_emit_log _ S) ?_
            intro _
            split
            · exact calls_bind_simple
                (calls_ignore (calls_do_pop_task env S h2)) (fun _ => ih)
            · exact calls_bind_simple (calls_pure _ S) (fun _ => ih)
          · exact calls_bind_simple (calls_emit_log _ S) (fun _ => ih)

theorem calls_do_water_rain_task (env : Nat → NetResult) (now : Nat)
    (task : WaterRainTask) (S : List String)
    (h : "waterRainForFarm" ∈ S) :
    Calls (do_water_rain_task env now task) S := by
  simp only [do_water_rain_task, M.bind_eq, M.pure_eq]
  split
  · exact calls_emit_log _ S
  · refine calls_bind_simple (calls_request env _ _ S h) ?_
    intro res
    split
    · exact calls_emit_log _ S
    · exact calls_emit_log _ S

theorem calls_water_friends_loop (env : Nat → NetResult)
    (fs : List FriendInfo) (S : List String)
    (h : "waterFriendForFarm" ∈ S) :
    ∀ c, Calls (water_friends_loop env fs c) S := by
  induction fs with
  | nil => intro c; exact calls_pure () S
  | cons friend rest ih =>
      intro c
      simp only [water_friends_loop, M.bind_eq, M.pure_eq]
      split
      · exact ih c
      · refine calls_bind_simple (calls_ignore (calls_request env _ _ S h))
          ?_
        intro _
        split
        · exact calls_pure () S
        · exact calls_bind_simple (calls_emit_sleep 1 S) (fun _ => ih _)

theorem calls_do_water_friend_task (env : Nat → NetResult)
    (task : WaterFriendTask) (S : List String)
    (h1 : "friendListInitForFarm" ∈ S) (h2 : "waterFriendForFarm" ∈ S)
    (h3 : "waterFriendGotAwardForFarm" ∈ S) :
    Calls (do_water_friend_task env task) S := by
  simp only [do_water_friend_task, M.bind_eq, M.pure_eq]
  split
  · refine calls_bind_simple (calls_emit_call _ _ S h1) ?_
    intro _
    refine calls_bind_simple (calls_next env S) ?_
    intro r
    split
    · -- the json branch binds the decoded value
      refine calls_bind_simple (calls_pure _ S) ?_
      intro data
      split
      · exact calls_throwErr S
      · refine calls_bind_simple (calls_water_friends_loop env _ S h2 _) ?_
        intro _
        refine calls_bind_simple (calls_request env _ _ S h3) ?_
        intro res
        split
        · exact calls_emit_log _ S
        · exact calls_emit_log _ S
    · -- a raised friend-list failure
      refine calls_bind_simple (calls_throwErr S) ?_
      intro data
      split
      · exact calls_throwErr S
      · refine calls_bind_simple (calls_water_friends_loop env _ S h2 _) ?_
        intro _
        refine calls_bind_simple (calls_request env _ _ S h3) ?_
        intro res
        split
        · exact calls_emit_log _ S
        · exact calls_emit_log _ S
  · exact calls_pure () S

theorem calls_get_clock_in_data (env : Nat → NetResult) (S : List String)
    (h : "clockInInitForFarm" ∈ S) : Calls (get_clock_in_data env) S := by
  simp only [get_clock_in_data, M.bind_eq, M.pure_eq]
  refine calls_bind_simple (calls_request env _ _ S h) ?_
  intro d
  split
  · exact calls_pure _ S
  · exact calls_throwErr S

theorem calls_get_clock_in_task (env : Nat → NetResult)
    (data : Option Json) (S : List String)
    (h : "clockInInitForFarm" ∈ S) :
    Calls (get_clock_in_task env data) S := by
  simp only [get_clock_in_task, M.bind_eq, M.pure_eq]
  split
  · refine calls_bind_simple (calls_pure _ S) ?_
    intro d
    split
    · exact calls_pure _ S
    · exact calls_throwErr S
  · refine calls_bind_simple (calls_get_clock_in_data env S h) ?_
    intro d
    split
    · exact calls_pure _ S
    · exact calls_throwErr S

theorem calls_use_card (env : Nat → NetResult) (card_type : String)
    (S : List String) (h : "userMyCardForFarm" ∈ S) :
    Calls (use_card env card_type) S := by
  simp only [use_card, M.bind_eq]
  refine calls_bind_simple (calls_request env _ _ S h) ?_
  intro res
  split
  · exact calls_emit_log _ S
  · exact calls_emit_log _ S

theorem calls_use_sign_cards (env : Nat → NetResult) (k : Nat)
    (S : List String) (h : "userMyCardForFarm" ∈ S) :
    Calls (use_sign_cards env k) S := by
  induction k with
  | zero => exact calls_pure () S
  | succ k ih =>
      simp only [use_sign_cards, M.bind_eq, M.pure_eq]
      exact calls_bind_simple (calls_ignore (calls_use_card env _ S h))
        (fun _ => calls_bind_simple (calls_emit_sleep 2 S) (fun _ => ih))

theorem calls_do_clock_in_sign_in_task (env : Nat → NetResult)
    (S : List String) (h1 : "clockInForFarm" ∈ S)
    (h2 : "myCardInfoForFarm" ∈ S) (h3 : "userMyCardForFarm" ∈ S) :
    Calls (do_clock_in_sign_in_task env) S := by
  simp only [do_clock_in_sign_in_task, M.bind_eq, M.pure_eq]
  refine calls_bind_simple (calls_request env _ _ S h1) ?_
  intro res
  split
  · refine calls_bind_simple (calls_emit_log _ S) ?_
    intro _
    refine calls_bind_simple
      (calls_attempt (calls_get_card_info env S h2)) ?_
    intro ci
    split
    · split
      · exact calls_use_sign_cards env _ S h3
      · exact calls_pure () S
    · exact calls_pure () S
  · exact calls_emit_log _ S

theorem calls_do_clock_in_follow_task (env : Nat → NetResult)
    (l : List FollowTask) (S : List String)
    (h : "clockInFollowForFarm" ∈ S) :
    Calls (do_clock_in_follow_task env l) S := by
  induction l with
  | nil => exact calls_pure () S
  | cons task rest ih =>
      simp only [do_clock_in_follow_task, M.bind_eq, M.pure_eq]
      split
      · exact ih
      · split
        · refine calls_bind_simple
            (calls_ignore (calls_request env _ _ S h)) ?_
          intro _
          refine calls_bind_simple (calls_emit_log _ S) ?_
          intro _
          refine calls_bind_simple (calls_request env _ _ S h) ?_
          intro res
          split
          · exact calls_bind_simple (calls_emit_log _ S) (fun _ => ih)
          · exact calls_bind_simple (calls_emit_log _ S) (fun _ => ih)
        · refine calls_bind_simple (calls_pure _ S) ?_
          intro _
          refine calls_bind_simple (calls_request env _ _ S h) ?_
          intro res
          split
          · exact calls_bind_simple (calls_emit_log _ S) (fun _ => ih)
          · exact calls_bind_simple (calls_emit_log _ S) (fun _ => ih)

theorem calls_click_duck_loop (env : Nat → NetResult) (fuel : Nat)
    (S : List String) (h : "getFullCollectionReward" ∈ S) :
    Calls (click_duck_loop env fuel) S := by
  induction fuel with
  | zero => exact calls_pure () S
  | succ fuel ih =>
      simp only [click_duck_loop, M.bind_eq, M.pure_eq]
      refine calls_bind_simple (calls_request env _ _ S h) ?_
      intro res
      split
      · exact calls_bind_simple (calls_emit_log _ S)
          (fun _ => calls_bind_simple (calls_emit_sleep 2 S) (fun _ => ih))
      · split
        · exact calls_emit_log _ S
        · exact calls_bind_simple (calls_emit_log _ S)
            (fun _ => calls_bind_simple (calls_emit_sleep 2 S)
              (fun _ => ih))

theorem calls_click_duck (env : Nat → NetResult) (S : List String)
    (h : "getFullCollectionReward" ∈ S) : Calls (click_duck env) S := by
  simp only [click_duck]
  exact calls_click_duck_loop env 10 S h

theorem calls_gated {done : Bool} {tag : String} {handler : M Unit}
    {S : List String} (h : Calls handler S) : Calls (gated done tag handler) S := by
  unfold gated
  split
  · exact h
  · exact calls_emit_log _ S

theorem calls_gated_cond {done : Bool} {tag : String} {handler : M Unit}
    {S : List String} (h : done = false → Calls handler S) :
    Calls (gated done tag handler) S := by
  unfold gated
  split_ifs with hc
  · exact h (by simpa using hc)
  · exact calls_emit_log _ S

theorem calls_pop_when (env : Nat → NetResult) (canPop : Bool)
    (S : List String) (h : "gotWaterGoalTaskForFarm" ∈ S) :
    Calls (pop_when env canPop) S := by
  unfold pop_when
  split
  · exact calls_ignore (calls_do_pop_task env S h)
  · exact calls_pure () S

theorem calls_run_log_card_info (ci : Except Unit CardInfo)
    (S : List String) : Calls (run_log_card_info ci) S := by
  unfold run_log_card_info
  split
  · exact calls_emit_log _ S
  · exact calls_emit_log _ S

theorem calls_run_double_card (env : Nat → NetResult) (S : List String)
    (h1 : "initForFarm" ∈ S) (h2 : "myCardInfoForFarm" ∈ S)
    (h3 : "userMyCardForFarm" ∈ S) : Calls (run_double_card env) S := by
  simp only [run_double_card, M.bind_eq, M.pure_eq]
  refine calls_bind_simple
    (calls_attempt (calls_get_farm_info env none S h1)) ?_
  intro fi2
  split
  · refine calls_bind_simple (calls_attempt (calls_get_card_info env S h2))
      ?_
    intro ci2
    split
    · split
      · exact calls_ignore (calls_use_card env _ S h3)
      · exact calls_pure () S
    · exact calls_pure () S
  · exact calls_pure () S

theorem is_success_envelope999 :
    is_success (Json.obj [("code", Json.str "999"),
      ("message", Json.str "request failed")]) = false := rfl

theorem is_success_envelope888 :
    is_success (Json.obj [("code", Json.str "888")]) = false := rfl

/-- A successfully decoded task catalog can only come from a JSON response
whose body decodes to it. -/
theorem get_task_info_ok {env : Nat → NetResult} {n : Nat} {ti' : TaskInfo}
    (h : (get_task_info env n).1 = Except.ok ti') :
    ∃ w, env n = NetResult.json w ∧ decodeTaskInfo w = some ti' := by
  simp only [get_task_info, M.bind_eq, M.pure_eq] at h
  rw [bind_request_apply] at h
  cases hg : env n with
  | sendFail =>
      rw [hg] at h
      simp [gatewayResult] at h
  | decodeFail =>
      rw [hg] at h
      simp only [gatewayResult] at h
      simp only [is_success_envelope999] at h
      simp [M.throwErr] at h
  | json v =>
      rw [hg] at h
      simp only [gatewayResult] at h
      by_cases hsome : (v.getField "code").isSome
      · simp only [hsome, if_true] at h
        cases hs : is_success v with
        | false =>
            simp only [hs] at h
            simp [M.throwErr] at h
        | true =>
            simp only [hs] at h
            cases hd : decodeTaskInfo v with
            | none =>
                simp only [hd] at h
                simp [M.throwErr] at h
            | some ti2 =>
                simp only [hd] at h
                simp only [M.pure] at h
                refine ⟨v, rfl, ?_⟩
                rw [hd]
                simp only [Except.ok.injEq] at h
                rw [h]
      · simp only [hsome, Bool.false_eq_true, if_false] at h
        simp only [is_success_envelope888] at h
        simp [M.throwErr] at h

theorem attempt_get_task_info_ok {env : Nat → NetResult} {n : Nat}
    {ti' : TaskInfo}
    (h : (M.attempt (get_task_info env) n).1 =
      Except.ok (Except.ok ti')) :
    ∃ w, env n = NetResult.json w ∧ decodeTaskInfo w = some ti' := by
  rw [M.attempt_apply] at h
  cases hr : (get_task_info env n).1 with
  | ok a =>
      simp only [hr] at h
      simp only [Except.ok.injEq] at h
      rw [← h]
      exact get_task_info_ok hr
  | error e =>
      simp only [hr] at h
      cases e <;> simp at h

/-- Master lemma: for every environment whose decodable catalog responses
all decode to `ti`, every call `run` issues targets an id in
`allowedIds ti`. -/
theorem calls_run (env : Nat → NetResult) (now cur_hour : Nat)
    (ti : TaskInfo)
    (H : ∀ m w ti', env m = NetResult.json w →
      decodeTaskInfo w = some ti' → ti' = ti) :
    Calls (run env now cur_hour) (allowedIds ti) := by
  have hinit : "initForFarm" ∈ allowedIds ti := by
    simp [allowedIds, baseIds]
  have hcard : "myCardInfoForFarm" ∈ allowedIds ti := by
    simp [allowedIds, baseIds]
  have hpop : "gotWaterGoalTaskForFarm" ∈ allowedIds ti := by
    simp [allowedIds, baseIds]
  have htask : "taskInitForFarm" ∈ allowedIds ti := by
    simp [allowedIds, baseIds]
  have hclockinit : "clockInInitForFarm" ∈ allowedIds ti := by
    simp [allowedIds, baseIds]
  have hclock : "clockInForFarm" ∈ allowedIds ti := by
    simp [allowedIds, baseIds]
  have husecard : "userMyCardForFarm" ∈ allowedIds ti := by
    simp [allowedIds, baseIds]
  have hfollow : "clockInFollowForFarm" ∈ allowedIds ti := by
    simp [allowedIds, baseIds]
  have hduck : "getFullCollectionReward" ∈ allowedIds ti := by
    simp [allowedIds, baseIds]
  simp only [run, M.bind_eq, M.pure_eq]
  refine calls_bind_simple
    (calls_attempt (calls_get_farm_data env _ hinit)) ?_
  intro fd
  split
  · exact calls_emit_log _ _
  · refine calls_bind_simple
      (calls_attempt (calls_get_farm_info env _ _ hinit)) ?_
    intro fi
    split
    · exact calls_emit_log _ _
    · refine calls_bind_simple (calls_farm_report _ _) ?_
      intro _
      refine calls_bind_simple
        (calls_attempt (calls_get_card_info env _ hcard)) ?_
      intro ci
      refine calls_bind_simple (calls_run_log_card_info ci _) ?_
      intro _
      refine calls_bind_simple (calls_pop_when env _ _ hpop) ?_
      intro _
      refine calls_bind
        (calls_attempt (calls_get_task_info env _ htask)) ?_
      intro tir hreach
      split
      · exact calls_emit_log _ _
      · rename_i task_info
        obtain ⟨n0, hn0⟩ := hreach
        obtain ⟨w, hw, hd⟩ := attempt_get_task_info_ok hn0
        have hti : task_info = ti := H n0 w task_info hw hd
        subst hti
        refine calls_bind_simple
          (calls_gated (calls_ignore (calls_sign_in _))) ?_
        intro _
        refine calls_bind_simple (calls_gated_cond (fun hf =>
          calls_ignore (calls_got_three_meal env cur_hour _
            (by simp [allowedIds, baseIds, hf])))) ?_
        intro _
        refine calls_bind_simple (calls_gated_cond (fun hf =>
          calls_ignore (calls_do_treasure_box_task env _ _
            (by simp [allowedIds, baseIds, hf])))) ?_
        intro _
        refine calls_bind_simple (calls_gated_cond (fun hf =>
          calls_ignore (calls_do_browse_task env _ _
            (by simp [allowedIds, baseIds, hf]) hpop))) ?_
        intro _
        refine calls_bind_simple (calls_gated_cond (fun hf =>
          calls_ignore (calls_do_water_rain_task env now _ _
            (by simp [allowedIds, baseIds, hf])))) ?_
        intro _
        refine calls_bind_simple (calls_gated_cond (fun hf =>
          calls_ignore (calls_do_water_friend_task env _ _
            (by simp [allowedIds, baseIds, hf])
            (by simp [allowedIds, baseIds, hf])
            (by simp [allowedIds, baseIds, hf])))) ?_
        intro _
        refine calls_bind_simple
          (calls_get_clock_in_task env none _ hclockinit) ?_
        intro ct
        refine calls_bind_simple (calls_gated (calls_ignore
          (calls_do_clock_in_sign_in_task env _ hclock hcard
            husecard))) ?_
        intro _
        refine calls_bind_simple (calls_ignore
          (calls_do_clock_in_follow_task env _ _ hfollow)) ?_
        intro _
        refine calls_bind_simple
          (calls_ignore (calls_click_duck env _ hduck)) ?_
        intro _
        refine calls_bind_simple
          (calls_run_double_card env _ hinit hcard husecard) ?_
        intro _
        refine calls_bind_simple (calls_gated_cond (fun hf =>
          calls_ignore (calls_do_first_water_task env _
            (by simp [allowedIds, baseIds, hf])
            (by simp [allowedIds, baseIds, hf]) hpop))) ?_
        intro _
        refine calls_bind_simple (calls_gated_cond (fun hf =>
          calls_ignore (calls_do_total_water_task env _ _
            (by simp [allowedIds, baseIds, hf])
            (by simp [allowedIds, baseIds, hf]) hpop))) ?_
        intro _
        refine calls_bind_simple
          (calls_ignore (calls_got_stage_award _)) ?_
        intro _
        refine calls_bind_simple
          (calls_attempt (calls_get_farm_info env none _ hinit)) ?_
        intro fi3
        split
        · exact calls_farm_report _ _
        · exact calls_pure () _

/-- C6: for every environment whose catalog responses decode to `ti`, each
task whose catalog done-flag is set contributes zero network calls to the
whole run: its task-specific action ids never appear among the run's calls
(the sign-in handler is a retired no-op, so its action id never appears at
all; `waterGoodForFarm` is shared by the two watering tasks and is absent
when both their flags are set). -/
theorem c6_catalog_gating (env : Nat → NetResult) (now cur_hour : Nat)
    (ti : TaskInfo)
    (H : ∀ m w ti', env m = NetResult.json w →
      decodeTaskInfo w = some ti' → ti' = ti) :
    (ti.got_three_meal_init.f = true →
      "gotThreeMealForFarm" ∉ callIds (M.eventsOf (run env now cur_hour) 0)) ∧
    (ti.treasure_box_init.f = true →
      "ddnc_getTreasureBoxAward" ∉
        callIds (M.eventsOf (run env now cur_hour) 0)) ∧
    (ti.got_browse_task_ad_init.f = true →
      "browseAdTaskForFarm" ∉ callIds (M.eventsOf (run env now cur_hour) 0)) ∧
    (ti.water_rain_init.f = true →
      "waterRainForFarm" ∉ callIds (M.eventsOf (run env now cur_hour) 0)) ∧
    (ti.water_friend_task_init.f = true →
      "friendListInitForFarm" ∉
        callIds (M.eventsOf (run env now cur_hour) 0) ∧
      "waterFriendForFarm" ∉ callIds (M.eventsOf (run env now cur_hour) 0) ∧
      "waterFriendGotAwardForFarm" ∉
        callIds (M.eventsOf (run env now cur_hour) 0)) ∧
    (ti.first_water_init.f = true →
      "firstWaterTaskForFarm" ∉
        callIds (M.eventsOf (run env now cur_hour) 0)) ∧
    (ti.total_water_task_init.f = true →
      "totalWaterTaskForFarm" ∉
        callIds (M.eventsOf (run env now cur_hour) 0)) ∧
    (ti.first_water_init.f = true → ti.total_water_task_init.f = true →
      "waterGoodForFarm" ∉ callIds (M.eventsOf (run env now cur_hour) 0)) ∧
    "signForFarm" ∉ callIds (M.eventsOf (run env now cur_hour) 0) := by
  have hc := calls_run env now cur_hour ti H
  refine ⟨fun hf hmem => ?_, fun hf hmem => ?_, fun hf hmem => ?_,
    fun hf hmem => ?_,
    fun hf => ⟨fun hmem => ?_, fun hmem => ?_, fun hmem => ?_⟩,
    fun hf hmem => ?_, fun hf hmem => ?_, fun hf1 hf2 hmem => ?_,
    fun hmem => ?_⟩
  · exact absurd (hc 0 _ hmem) (by
      unfold allowedIds baseIds
      rw [hf]
      simp only [if_true]
      split_ifs <;> decide)
  · exact absurd (hc 0 _ hmem) (by
      unfold allowedIds baseIds
      rw [hf]
      simp only [if_true]
      split_ifs <;> decide)
  · exact absurd (hc 0 _ hmem) (by
      unfold allowedIds baseIds
      rw [hf]
      simp only [if_true]
      split_ifs <;> decide)
  · exact absurd (hc 0 _ hmem) (by
      unfold allowedIds baseIds
      rw [hf]
      simp only [if_true]
      split_ifs <;> decide)
  · exact absurd (hc 0 _ hmem) (by
      unfold allowedIds baseIds
      rw [hf]
      simp only [if_true]
      split_ifs <;> decide)
  · exact absurd (hc 0 _ hmem) (by
      unfold allowedIds baseIds
      rw [hf]
      simp only [if_true]
      split_ifs <;> decide)
  · exact absurd (hc 0 _ hmem) (by
      unfold allowedIds baseIds
      rw [hf]
      simp only [if_true]
      split_ifs <;> decide)
  · exact absurd (hc 0 _ hmem) (by
      unfold allowedIds baseIds
      rw [hf]
      simp only [if_true]
      split_ifs <;> decide)
  · exact absurd (hc 0 _ hmem) (by
      unfold allowedIds baseIds
      rw [hf]
      simp only [if_true]
      split_ifs <;> decide)
  · exact absurd (hc 0 _ hmem) (by
      unfold allowedIds baseIds
      rw [hf1, hf2]
      simp only [if_true]
      split_ifs <;> decide)
  · exact absurd (hc 0 _ hmem) (by
      unfold allowedIds baseIds
      split_ifs <;> decide)

/-- C6 witness: every catalog flag set, responses all undecodable — none of
the task-specific ids can appear among the run's calls. -/
theorem c6_witness :
    "gotThreeMealForFarm" ∉
      callIds (M.eventsOf (run (fun _ => NetResult.decodeFail) 0 0) 0) ∧
    "ddnc_getTreasureBoxAward" ∉
      callIds (M.eventsOf (run (fun _ => NetResult.decodeFail) 0 0) 0) ∧
    "browseAdTaskForFarm" ∉
      callIds (M.eventsOf (run (fun _ => NetResult.decodeFail) 0 0) 0) ∧
    "waterRainForFarm" ∉
      callIds (M.eventsOf (run (fun _ => NetResult.decodeFail) 0 0) 0) ∧
    "friendListInitForFarm" ∉
      callIds (M.eventsOf (run (fun _ => NetResult.decodeFail) 0 0) 0) ∧
    "waterFriendForFarm" ∉
      callIds (M.eventsOf (run (fun _ => NetResult.decodeFail) 0 0) 0) ∧
    "waterFriendGotAwardForFarm" ∉
      callIds (M.eventsOf (run (fun _ => NetResult.decodeFail) 0 0) 0) ∧
    "firstWaterTaskForFarm" ∉
      callIds (M.eventsOf (run (fun _ => NetResult.decodeFail) 0 0) 0) ∧
    "totalWaterTaskForFarm" ∉
      callIds (M.eventsOf (run (fun _ => NetResult.decodeFail) 0 0) 0) ∧
    "waterGoodForFarm" ∉
      callIds (M.eventsOf (run (fun _ => NetResult.decodeFail) 0 0) 0) ∧
    "signForFarm" ∉
      callIds (M.eventsOf (run (fun _ => NetResult.decodeFail) 0 0) 0) := by
  have h := c6_catalog_gating (fun _ => NetResult.decodeFail) 0 0
    { sign_init := { f := true },
      first_water_init := { f := true },
      total_water_task_init :=
        { f := true, total_water_task_limit := 10,
          total_water_task_times := 0 },
      water_friend_task_init :=
        { water_friend_max := 2, water_friend_count_key := 0, f := true,
          water_friend_got_award := false },
      got_browse_task_ad_init := { f := true, user_browse_task_ads := [] },
      treasure_box_init := { line := "l", f := true },
      water_rain_init := { f := true, win_times := 0, last_time := 0 },
      got_three_meal_init := { f := true } }
    (fun m w ti' hw _ => nomatch hw)
  obtain ⟨h1, h2, h3, h4, h5, h6, h7, h8, h9⟩ := h
  obtain ⟨h5a, h5b, h5c⟩ := h5 rfl
  exact ⟨h1 rfl, h2 rfl, h3 rfl, h4 rfl, h5a, h5b, h5c, h6 rfl, h7 rfl,
    h8 rfl rfl, h9⟩

/-! ## C7 — the scheduled-claim time window is advisory only -/

/-- C7: for every local hour (UTC+8), the three-meals handler issues
exactly one claim call; when the hour falls in a blocked window
(hour ≥ 21, 9–10, or 14–16) it first logs an advisory — but the call still
proceeds. -/
theorem c7_three_meal_advisory (env : Nat → NetResult) (cur_hour : Nat)
    (n : Nat) :
    callIds (M.eventsOf (got_three_meal env cur_hour) n) =
      ["gotThreeMealForFarm"] ∧
    (three_meal_blocked cur_hour = true →
      ∃ rest, M.eventsOf (got_three_meal env cur_hour) n =
        Event.log "three_meal_blocked_window" :: rest) := by
  have hcall : ∀ m : Nat,
      callIds (M.eventsOf (M.bind (request env "gotThreeMealForFarm"
          threeMealBody)
        (fun res =>
          if is_success res then M.emit (Event.log "three_meal_ok")
          else M.emit (Event.log "three_meal_failed"))) m) =
        ["gotThreeMealForFarm"] := fun m =>
    callIds_request_then_log_ite env "gotThreeMealForFarm" threeMealBody
      "three_meal_ok" "three_meal_failed" m
  cases hb : three_meal_blocked cur_hour with
  | false =>
      have h1 : M.eventsOf (got_three_meal env cur_hour) n =
          M.eventsOf (M.bind (request env "gotThreeMealForFarm" threeMealBody)
            (fun res =>
              if is_success res then M.emit (Event.log "three_meal_ok")
              else M.emit (Event.log "three_meal_failed"))) n := by
        simp [got_three_meal, M.bind_eq, M.pure_eq, hb, M.eventsOf_bind_pure]
      exact ⟨by rw [h1]; exact hcall n,
        fun hcontra => (Bool.false_ne_true hcontra).elim⟩
  | true =>
      have h1 : M.eventsOf (got_three_meal env cur_hour) n =
          Event.log "three_meal_blocked_window" ::
            M.eventsOf (M.bind (request env "gotThreeMealForFarm" threeMealBody)
              (fun res =>
                if is_success res then M.emit (Event.log "three_meal_ok")
                else M.emit (Event.log "three_meal_failed"))) n := by
        simp [got_three_meal, M.bind_eq, M.pure_eq, hb, M.eventsOf_bind_emit]
      constructor
      · rw [h1]
        have h2 := hcall n
        simp only [callIds, List.filterMap] at *
        exact h2
      · intro _
        exact ⟨_, h1⟩

/-- C7 witness: at hour 22 (blocked window) the advisory is logged and the
claim call is still issued. -/
theorem c7_witness :
    callIds (M.eventsOf (got_three_meal (fun _ => NetResult.decodeFail) 22) 0) =
      ["gotThreeMealForFarm"] ∧
    ∃ rest, M.eventsOf (got_three_meal (fun _ => NetResult.decodeFail) 22) 0 =
      Event.log "three_meal_blocked_window" :: rest :=
  ⟨(c7_three_meal_advisory (fun _ => NetResult.decodeFail) 22 0).1,
   (c7_three_meal_advisory (fun _ => NetResult.decodeFail) 22 0).2 (by decide)⟩

end JdFarm
